import Mathlib

/-!
# StaticBackend: membership, account creation and the real-time hub

A shallow embedding of `membership.go` and `account.go`, and of the real-time
hub that `hub_test.go` exercises.

Conventions of the embedding:

* Go `string` is `String`; `len s` is the UTF-8 byte length.
* Go `error` is a `String` (the text of `err.Error()`); a call returning
  `(v, err)` returns `Except GoError v`, a call returning only `err` returns
  `Option GoError`.
* The hub itself is not among the sources; it is modelled from the
  specification in the namespace `Hub`.
* Everything outside the process (MongoDB driver failures, the cache, Stripe,
  the mailer, the clock, the random generator, object ids, the helpers of the
  packages `internal` and `middleware`) is read from an `Env` of oracles,
  indexed by the `tick` of the `World`, which counts the calls made so far.
* `time.Time` is the number of nanoseconds since the Unix epoch.
-/

set_option linter.dupNamespace false

namespace StaticBackend

/-! ### `membership.go` and the types of package `internal` it uses -/

/-- The text of a Go `error`. -/
abbrev GoError := String

/-- A `primitive.ObjectID`, identified with its 24-digit hexadecimal form. -/
structure ObjectID where
  Hex : String
deriving DecidableEq, Repr

/-- A `time.Time` as nanoseconds since the Unix epoch. -/
abbrev Time := Nat

/-- Go `time.Second`, in nanoseconds. -/
def Second : Nat := 1000000000

/-- Go `time.Minute`. -/
def Minute : Nat := 60 * Second

/-- Go `time.Hour`. -/
def Hour : Nat := 60 * Minute

/-- Go `Time.Add`. -/
def Time.Add (t : Time) (d : Nat) : Time := t + d

/-- Library `jwt.NumericDate`: the Unix time of `t` in whole seconds. -/
def NumericDate (t : Time) : Nat := t / Second

/-- Library `jwt.Payload`, the registered claims that `getJWT` fills in. -/
structure jwt.Payload where
  Issuer : String
  ExpirationTime : Nat
  NotBefore : Nat
  IssuedAt : Nat
  JWTID : String
deriving DecidableEq, Repr

/-- Record `internal.JWTPayload`. -/
structure JWTPayload where
  Payload : jwt.Payload
  Token : String
deriving DecidableEq, Repr

/-- Record `internal.BaseConfig`, the tenant configuration. -/
structure BaseConfig where
  ID : ObjectID
  SBID : ObjectID
  Name : String
  IsActive : Bool
  Whitelist : List String
deriving DecidableEq, Repr

/-- Record `internal.Token`, a user record of the collection `sb_tokens`. -/
structure Token where
  ID : ObjectID
  AccountID : ObjectID
  Email : String
  Token : String
  Password : String
  Role : Int
deriving DecidableEq, Repr

/-- Record `internal.Auth`, the identity kept in the cache. -/
structure Auth where
  AccountID : ObjectID
  UserID : ObjectID
  Email : String
  Role : Int
  Token : String
deriving DecidableEq, Repr

/-- Record `internal.Account`, a document of the collection `sb_accounts`. -/
structure Account where
  ID : ObjectID
  Email : String
deriving DecidableEq, Repr

/-- Record `internal.Customer`, a document of the system database. -/
structure Customer where
  ID : ObjectID
  Email : String
  StripeID : String
  SubscriptionID : String
  IsActive : Bool
  Created : Time
deriving DecidableEq, Repr

/-- Record `internal.Login`, the body of `login` and `register`. -/
structure Login where
  Email : String
  Password : String
deriving DecidableEq, Repr

/-- Record `internal.SendMailData`. -/
structure SendMailData where
  From : String
  FromName : String
  To : String
  ToName : String
  Subject : String
  HTMLBody : String
  TextBody : String
deriving DecidableEq, Repr

/-- The body of `setRole`. -/
structure SetRoleData where
  Email : String
  Role : Int
deriving DecidableEq, Repr

/-- The body of `setPassword`. -/
structure SetPasswordData where
  Email : String
  OldPassword : String
  NewPassword : String
deriving DecidableEq, Repr

/-- A value stored by `cache.SetTyped`. -/
inductive CacheVal where
  | auth (a : Auth)
  | conf (c : BaseConfig)
deriving DecidableEq, Repr

/-- The part of an `http.Request` the handlers read. -/
structure Request where
  Method : String
  Form : String → String
  Query : String → String
  Body : String

/-- The `Flash` message handed to `render`. -/
structure Flash where
  Type_ : String
  Message : String
deriving DecidableEq, Repr

/-- The value written by `respond`. -/
inductive Value where
  | str (s : String)
  | bool (b : Bool)
deriving DecidableEq, Repr

/-- What a handler writes to its `http.ResponseWriter`. -/
inductive Response where
  | error (msg : String) (code : Nat)
  | respond (code : Nat) (v : Value)
  | redirect (url : String) (code : Nat)
  | render (view : String) (flash : Flash)
deriving DecidableEq, Repr

/-- The HTTP status of a response (`render` writes a page with 200). -/
def Response.status : Response → Nat
  | .error _ code => code
  | .respond code _ => code
  | .redirect _ code => code
  | .render _ _ => 200

/-- Go `http.StatusOK`. -/
def StatusOK : Nat := 200

/-- Go `http.StatusSeeOther`. -/
def StatusSeeOther : Nat := 303

/-- Go `http.StatusBadRequest`. -/
def StatusBadRequest : Nat := 400

/-- Go `http.StatusUnauthorized`. -/
def StatusUnauthorized : Nat := 401

/-- Go `http.StatusNotFound`. -/
def StatusNotFound : Nat := 404

/-- Go `http.StatusInternalServerError`. -/
def StatusInternalServerError : Nat := 500

/-- Calls that leave the process without a state model of their own: the
helpers of package `internal`, Stripe and the mailer. Each is recorded with its
result. -/
inductive Effect where
  | emailExists (email : String) (res : Except GoError Bool)
  | customerNew (email : String) (res : Except GoError String)
  | subNew (customer price : String) (trialDays : Nat) (res : Except GoError String)
  | createAccount (doc : Customer) (res : Option GoError)
  | databaseExists (name : String) (res : Except GoError Bool)
  | createBase (base : BaseConfig) (res : Option GoError)
  | sessionNew (customer returnURL : String) (res : Except GoError String)
  | findTokenByEmail (db email : String) (res : Except GoError Token)
  | send (ed : SendMailData) (res : Option GoError)

/-- The oracles: library functions, package-level values and the outcome of
every call that leaves the process. A `Nat` argument is the tick of the call. -/
structure Env where
  ToLower : String → String
  Extract : Request → Bool → Except GoError (BaseConfig × Auth)
  DecodeLogin : String → Except GoError Login
  DecodeSetRole : String → Except GoError SetRoleData
  DecodeSetPassword : String → Except GoError SetPasswordData
  dbErr : Nat → Option GoError
  cacheErr : Nat → Option GoError
  CompareHashAndPassword : String → String → Bool
  GenerateFromPassword : Nat → String → Except GoError String
  NewObjectID : Nat → ObjectID
  Now : Nat → Time
  Intn : Nat → Nat
  Sign : JWTPayload → String → Except GoError String
  HashSecret : String
  EmailExists : Nat → String → Except GoError Bool
  CreateAccount : Nat → Customer → Option GoError
  DatabaseExists : Nat → String → Except GoError Bool
  CreateBase : Nat → BaseConfig → Option GoError
  FindTokenByEmail : Nat → String → String → Except GoError Token
  CustomerNew : Nat → String → Except GoError String
  SubNew : Nat → String → String → Except GoError String
  SessionNew : Nat → String → Except GoError String
  Send : Nat → SendMailData → Option GoError
  StripHTML : String → String
  AppEnv : String
  AppEnvProd : String
  Getenv : String → String
  FromEmail : String
  FromName : String

/-- The state the handlers act on: the collections `sb_tokens` and
`sb_accounts` of every database (by database name), the cache, the record of
outside calls (most recent first) and the number of oracle calls so far. -/
structure World where
  tokens : String → List Token
  accounts : String → List Account
  cache : String → Option CacheVal
  log : List Effect
  tick : Nat

/-- One oracle call has been made. -/
def World.next (w : World) : World := { w with tick := w.tick + 1 }

/-- One outside call has been made and recorded. -/
def World.record (w : World) (e : Effect) : World :=
  { w with log := e :: w.log, tick := w.tick + 1 }

/-- Call `primitive.NewObjectID()`. -/
def NewObjectID (env : Env) (w : World) : ObjectID × World :=
  (env.NewObjectID w.tick, w.next)

/-- Call `time.Now()`. -/
def Now (env : Env) (w : World) : Time × World :=
  (env.Now w.tick, w.next)

/-- Method `cache.SetTyped`: on success the key maps to the value. -/
def SetTyped (env : Env) (key : String) (v : CacheVal) (w : World) : Option GoError × World :=
  match env.cacheErr w.tick with
  | some e => (some e, w.next)
  | none =>
    (none, { w with cache := fun k => if k = key then some v else w.cache k, tick := w.tick + 1 })

/-- The error `mongo.ErrNoDocuments`. -/
def ErrNoDocuments : GoError := "mongo: no documents in result"

/-- Call `db.Collection("sb_tokens").CountDocuments(ctx, bson.M{"email": email})`. -/
def CountDocuments (env : Env) (db email : String) (w : World) : Except GoError Nat × World :=
  match env.dbErr w.tick with
  | some e => (.error e, w.next)
  | none => (.ok ((w.tokens db).countP (fun t => t.Email == email)), w.next)

/-- Call `db.Collection("sb_tokens").FindOne(ctx, bson.M{"email": email})`
followed by `Decode`. -/
def FindOne (env : Env) (db email : String) (w : World) : Except GoError Token × World :=
  match env.dbErr w.tick with
  | some e => (.error e, w.next)
  | none =>
    match (w.tokens db).find? (fun t => t.Email == email) with
    | some tok => (.ok tok, w.next)
    | none => (.error ErrNoDocuments, w.next)

/-- Call `db.Collection("sb_accounts").InsertOne(ctx, a)`. -/
def InsertOneAccount (env : Env) (db : String) (a : Account) (w : World) : Option GoError × World :=
  match env.dbErr w.tick with
  | some e => (some e, w.next)
  | none =>
    (none, { w with
      accounts := fun n => if n = db then w.accounts n ++ [a] else w.accounts n,
      tick := w.tick + 1 })

/-- Call `db.Collection("sb_tokens").InsertOne(ctx, tok)`. -/
def InsertOneToken (env : Env) (db : String) (tok : Token) (w : World) : Option GoError × World :=
  match env.dbErr w.tick with
  | some e => (some e, w.next)
  | none =>
    (none, { w with
      tokens := fun n => if n = db then w.tokens n ++ [tok] else w.tokens n,
      tick := w.tick + 1 })

/-- Apply `f` to the first element satisfying `p`, as `UpdateOne` does. -/
def updateFirst {α : Type} (p : α → Bool) (f : α → α) : List α → List α
  | [] => []
  | x :: xs => if p x then f x :: xs else x :: updateFirst p f xs

/-- Call `db.Collection("sb_tokens").UpdateOne(ctx, filter, update)`, with the
filter as a predicate and the `$set` as a function. -/
def UpdateOne (env : Env) (db : String) (filter : Token → Bool) (update : Token → Token)
    (w : World) : Option GoError × World :=
  match env.dbErr w.tick with
  | some e => (some e, w.next)
  | none =>
    (none, { w with
      tokens := fun n => if n = db then updateFirst filter update (w.tokens n) else w.tokens n,
      tick := w.tick + 1 })

/-- The token `fmt.Sprintf("%s|%s", tok.ID.Hex(), tok.Token)`. -/
def sessionKey (tok : Token) : String := tok.ID.Hex ++ "|" ++ tok.Token

/-- The payload `pl` that `membership.getJWT` builds from the clock reading
`now`, a fresh object id and the token. -/
def getJWT.pl (now : Time) (jwtid : ObjectID) (token : String) : JWTPayload :=
  { Payload :=
      { Issuer := "StaticBackend"
        ExpirationTime := NumericDate (now.Add (12 * Hour))
        NotBefore := NumericDate (now.Add (30 * Minute))
        IssuedAt := NumericDate now
        JWTID := jwtid.Hex }
    Token := token }

/-- Method `membership.getJWT`: the payload is signed with `internal.HashSecret`. -/
def getJWT (env : Env) (token : String) (w : World) : Except GoError String × World :=
  let (now, w) := Now env w
  let (jwtid, w) := NewObjectID env w
  (env.Sign (getJWT.pl now jwtid token) env.HashSecret, w)

/-- Method `membership.validateUserPassword`. -/
def validateUserPassword (env : Env) (db email password : String) (w : World) :
    Except GoError Token × World :=
  let email := env.ToLower email
  match FindOne env db email w with
  | (.error e, w) => (.error e, w)
  | (.ok tok, w) =>
    if env.CompareHashAndPassword tok.Password password then (.ok tok, w)
    else (.error "invalid email/password", w)

/-- Method `membership.login`. -/
def login (env : Env) (r : Request) (w : World) : Response × World :=
  match env.Extract r false with
  | .error _ => (.error "invalid StaticBackend key" StatusUnauthorized, w)
  | .ok (conf, _) =>
    let db := conf.Name
    match env.DecodeLogin r.Body with
    | .error e => (.error e StatusBadRequest, w)
    | .ok l =>
      let l : Login := { l with Email := env.ToLower l.Email }
      match validateUserPassword env db l.Email l.Password w with
      | (.error e, w) => (.error e StatusInternalServerError, w)
      | (.ok tok, w) =>
        let token := sessionKey tok
        match getJWT env token w with
        | (.error e, w) => (.error e StatusInternalServerError, w)
        | (.ok jwtBytes, w) =>
          let auth : Auth :=
            { AccountID := tok.AccountID
              UserID := tok.ID
              Email := tok.Email
              Role := tok.Role
              Token := tok.Token }
          match SetTyped env token (.auth auth) w with
          | (some e, w) => (.error e StatusInternalServerError, w)
          | (none, w) =>
            match SetTyped env ("base:" ++ token) (.conf conf) w with
            | (some e, w) => (.error e StatusInternalServerError, w)
            | (none, w) => (.respond StatusOK (.str jwtBytes), w)

/-- Method `membership.createUser`. -/
def createUser (env : Env) (db : String) (accountID : ObjectID) (email password : String)
    (role : Int) (w : World) : Except GoError (String × Token) × World :=
  match env.GenerateFromPassword w.tick password, w.next with
  | .error e, w => (.error e, w)
  | .ok b, w =>
    let (id, w) := NewObjectID env w
    let (secret, w) := NewObjectID env w
    let tok : Token :=
      { ID := id
        AccountID := accountID
        Email := email
        Token := secret.Hex
        Password := b
        Role := role }
    match InsertOneToken env db tok w with
    | (some e, w) => (.error e, w)
    | (none, w) =>
      let token := sessionKey tok
      match getJWT env token w with
      | (.error e, w) => (.error e, w)
      | (.ok jwtBytes, w) =>
        let auth : Auth :=
          { AccountID := tok.AccountID
            UserID := tok.ID
            Email := tok.Email
            Role := role
            Token := tok.Token }
        match SetTyped env token (.auth auth) w with
        | (some e, w) => (.error e, w)
        | (none, w) => (.ok (jwtBytes, tok), w)

/-- Method `membership.createAccountAndUser`. -/
def createAccountAndUser (env : Env) (db email password : String) (role : Int) (w : World) :
    Except GoError (String × Token) × World :=
  let (acctID, w) := NewObjectID env w
  let a : Account := { ID := acctID, Email := email }
  match InsertOneAccount env db a w with
  | (some e, w) => (.error e, w)
  | (none, w) =>
    match createUser env db acctID email password role w with
    | (.error e, w) => (.error e, w)
    | (.ok (jwtBytes, tok), w) => (.ok (jwtBytes, tok), w)

/-- Method `membership.register`. -/
def register (env : Env) (r : Request) (w : World) : Response × World :=
  match env.Extract r false with
  | .error _ => (.error "invalid StaticBackend key" StatusUnauthorized, w)
  | .ok (conf, _) =>
    let db := conf.Name
    match env.DecodeLogin r.Body with
    | .error e => (.error e StatusBadRequest, w)
    | .ok l =>
      let l : Login := { l with Email := env.ToLower l.Email }
      match CountDocuments env db l.Email w with
      | (.error e, w) => (.error e StatusInternalServerError, w)
      | (.ok count, w) =>
        if count > 0 then (.error "invalid email" StatusBadRequest, w)
        else
          match createAccountAndUser env db l.Email l.Password 0 w with
          | (.error e, w) => (.error e StatusInternalServerError, w)
          | (.ok (jwtBytes, tok), w) =>
            let token := jwtBytes
            let auth : Auth :=
              { AccountID := tok.AccountID
                UserID := tok.ID
                Email := tok.Email
                Role := tok.Role
                Token := tok.Token }
            match SetTyped env token (.auth auth) w with
            | (some e, w) => (.error e StatusInternalServerError, w)
            | (none, w) =>
              match SetTyped env ("base:" ++ token) (.conf conf) w with
              | (some e, w) => (.error e StatusInternalServerError, w)
              | (none, w) => (.respond StatusOK (.str token), w)

/-- Method `membership.setRole`. -/
def setRole (env : Env) (r : Request) (w : World) : Response × World :=
  match env.Extract r true with
  | .error _ => (.error "insufficient priviledges" StatusUnauthorized, w)
  | .ok (conf, a) =>
    if a.Role < 100 then (.error "insufficient priviledges" StatusUnauthorized, w)
    else
      match env.DecodeSetRole r.Body with
      | .error e => (.error e StatusBadRequest, w)
      | .ok data =>
        let db := conf.Name
        match UpdateOne env db (fun t => t.Email == data.Email)
            (fun t => { t with Role := data.Role }) w with
        | (some e, w) => (.error e StatusInternalServerError, w)
        | (none, w) => (.respond StatusOK (.bool true), w)

/-- Method `membership.setPassword`. -/
def setPassword (env : Env) (r : Request) (w : World) : Response × World :=
  match env.Extract r true with
  | .error _ => (.error "insufficient priviledges" StatusUnauthorized, w)
  | .ok (conf, a) =>
    if a.Role < 100 then (.error "insufficient priviledges" StatusUnauthorized, w)
    else
      match env.DecodeSetPassword r.Body with
      | .error e => (.error e StatusBadRequest, w)
      | .ok data =>
        let db := conf.Name
        match validateUserPassword env db data.Email data.OldPassword w with
        | (.error e, w) => (.error e StatusUnauthorized, w)
        | (.ok tok, w) =>
          match env.GenerateFromPassword w.tick data.NewPassword, w.next with
          | .error e, w => (.error e StatusInternalServerError, w)
          | .ok newpw, w =>
            match UpdateOne env db (fun t => t.ID == tok.ID)
                (fun t => { t with Password := newpw }) w with
            | (some e, w) => (.error e StatusInternalServerError, w)
            | (none, w) => (.respond StatusOK (.bool true), w)

/-! ### `account.go` -/

/-- Package variable `letterRunes`. -/
def letterRunes : List Char :=
  "abcdefghijkmnopqrstuvwxyzABCDEFGHJKLMNPQRSTUVWXYZ2345679".toList

/-- Call `rand.Intn(n)`: a value of the generator reduced into `[0, n)`. -/
def Intn (env : Env) (n : Nat) (w : World) : Nat × World :=
  (env.Intn w.tick % n, w.next)

/-- The loop of `randStringRunes`: `n` runes drawn from `letterRunes`. -/
def randRunes (env : Env) : Nat → World → List Char × World
  | 0, w => ([], w)
  | n + 1, w =>
    let (i, w) := Intn env letterRunes.length w
    let (b, w) := randRunes env n w
    (letterRunes.getD i 'a' :: b, w)

/-- Function `randStringRunes`. -/
def randStringRunes (env : Env) (n : Nat) (w : World) : String × World :=
  let (b, w) := randRunes env n w
  (String.mk b, w)

/-- Go `len(s)` of a string: its length in bytes. -/
def len (s : String) : Nat := s.utf8ByteSize

/-- The search of `strings.Index` from byte offset `off`. -/
def indexFrom (substr : List Char) : List Char → Nat → Int
  | [], off => if substr.isEmpty then (off : Int) else -1
  | c :: cs, off =>
    if substr.isPrefixOf (c :: cs) then (off : Int) else indexFrom substr cs (off + c.utf8Size)

/-- Go `strings.Index`: the byte offset of the first instance of `substr` in
`s`, or `-1`. -/
def Index (s substr : String) : Int := indexFrom substr.data s.data 0

/-- Go `strings.HasPrefix`. -/
def HasPrefix (s pre : String) : Bool := pre.data.isPrefixOf s.data

/-- Go `http.MethodPost`. -/
def MethodPost : String := "POST"

/-- Call `internal.EmailExists(db, email)` on the system database. -/
def EmailExists (env : Env) (email : String) (w : World) : Except GoError Bool × World :=
  let res := env.EmailExists w.tick email
  (res, w.record (.emailExists email res))

/-- Call `customer.New` of Stripe; the result is the id of the customer. -/
def CustomerNew (env : Env) (email : String) (w : World) : Except GoError String × World :=
  let res := env.CustomerNew w.tick email
  (res, w.record (.customerNew email res))

/-- Call `sub.New` of Stripe with a trial of 14 days; the result is the id of
the subscription. -/
def SubNew (env : Env) (customer price : String) (w : World) : Except GoError String × World :=
  let res := env.SubNew w.tick customer price
  (res, w.record (.subNew customer price 14 res))

/-- Call `internal.CreateAccount(db, doc)` on the system database. -/
def CreateAccount (env : Env) (doc : Customer) (w : World) : Option GoError × World :=
  let res := env.CreateAccount w.tick doc
  (res, w.record (.createAccount doc res))

/-- Call `internal.DatabaseExists(db, dbName)` on the system database. -/
def DatabaseExists (env : Env) (dbName : String) (w : World) : Except GoError Bool × World :=
  let res := env.DatabaseExists w.tick dbName
  (res, w.record (.databaseExists dbName res))

/-- Call `internal.CreateBase(db, base)` on the system database. -/
def CreateBase (env : Env) (base : BaseConfig) (w : World) : Option GoError × World :=
  let res := env.CreateBase w.tick base
  (res, w.record (.createBase base res))

/-- Call `session.New` of the Stripe billing portal; the result is the URL. -/
def SessionNew (env : Env) (customer returnURL : String) (w : World) :
    Except GoError String × World :=
  let res := env.SessionNew w.tick customer
  (res, w.record (.sessionNew customer returnURL res))

/-- Call `internal.FindTokenByEmail(db, email)`. -/
def FindTokenByEmail (env : Env) (db email : String) (w : World) : Except GoError Token × World :=
  let res := env.FindTokenByEmail w.tick db email
  (res, w.record (.findTokenByEmail db email res))

/-- Call `emailer.Send(ed)`. -/
def Send (env : Env) (ed : SendMailData) (w : World) : Option GoError × World :=
  let res := env.Send w.tick ed
  (res, w.record (.send ed res))

/-- The condition `AppEnv == AppEnvProd && len(os.Getenv("STRIPE_KEY")) > 0`. -/
def stripeEnabled (env : Env) : Bool :=
  env.AppEnv == env.AppEnvProd && decide (len (env.Getenv "STRIPE_KEY") > 0)

/-- The Stripe block of `accounts.create` (the customer and its subscription):
the customer id, the subscription id and the `active` flag. -/
def createStripe (env : Env) (email : String) (w : World) :
    Except GoError (String × String × Bool) × World :=
  if stripeEnabled env then
    match CustomerNew env email w with
    | (.error e, w) => (.error e, w)
    | (.ok cusID, w) =>
      match SubNew env cusID (env.Getenv "STRIPE_PRICEID") w with
      | (.error e, w) => (.error e, w)
      | (.ok newSubID, w) => (.ok (cusID, newSubID, false), w)
  else (.ok ("", "", true), w)

/-- The loop of `accounts.create` that makes sure the database name is unique.
One unit of `fuel` is one iteration; `retry` is decremented and never read. -/
def createDBName (env : Env) : Nat → Int → String → World → Option (Except GoError String × World)
  | 0, _, _, _ => none
  | fuel + 1, retry, dbName, w =>
    match DatabaseExists env dbName w with
    | (.error e, w) => some (.error e, w)
    | (.ok true, w) =>
      let retry := retry - 1
      let (dbName, w) := randStringRunes env 12 w
      createDBName env fuel retry dbName w
    | (.ok false, w) => some (.ok dbName, w)

/-- The billing-portal block of `accounts.create`: the sign-up URL. -/
def createSignUpURL (env : Env) (stripeCustomerID : String) (w : World) :
    Except GoError String × World :=
  if stripeEnabled env then
    match SessionNew env stripeCustomerID "https://staticbackend.com/stripe" w with
    | (.error e, w) => (.error e, w)
    | (.ok url, w) => (.ok url, w)
  else (.ok "no need to sign up in dev mode", w)

/-- The HTML body of the welcome mail, `fmt.Sprintf` applied to its template. -/
def mailBody (baseID email pw rootToken : String) : String :=
  "\n\t<p>Hey there,</p>" ++
  "\n\t<p>Thanks for creating your account.</p>" ++
  "\n\t<p>Your SB-PUBLIC-KEY is required on all your API requests:</p>" ++
  "\n\t<p>SB-PUBLUC-KEY: <strong>" ++ baseID ++ "</strong></p>" ++
  "\n\t<p>We\x27ve created an admin user for your new database:</p>" ++
  "\n\t<p>email: " ++ email ++ "<br />" ++
  "\n\tpassword: " ++ pw ++ "</p>" ++
  "\n\t<p>This is your root token key. You\x27ll need this to manage your database and " ++
  "\n\texecute \"sudo\" commands from your backend functions</p>" ++
  "\n\t<p>ROOT TOKEN: <strong>" ++ rootToken ++ "</strong></p>" ++
  "\n\t<p>Make sure you complete your account creation by entering a valid credit " ++
  "\n\tcard via the link you got when issuing the account create command.</p>" ++
  "\n\t<p>If you have any questions, please reply to this email.</p>" ++
  "\n\t<p>Good luck with your projects.</p>" ++
  "\n\t<p>Dominic<br />Founder</p>" ++
  "\n\t"

/-- Method `accounts.create`. The result is `none` when `fuel` iterations of
the unique-name loop were not enough. -/
def create (env : Env) (fuel : Nat) (r : Request) (w : World) : Option (Response × World) :=
  let fromCLI : Bool := !(r.Method == MethodPost)
  let email : String :=
    if r.Method == MethodPost then env.ToLower (r.Form "email")
    else env.ToLower (r.Query "email")
  if len email < 4 ∨ Index email "@" = -1 ∨ Index email "." = -1 then
    some (.error "invalid email" StatusBadRequest, w)
  else
    match EmailExists env email w with
    | (.error e, w) => some (.error e StatusInternalServerError, w)
    | (.ok true, w) =>
      some (.error "Please use a different/valid email." StatusInternalServerError, w)
    | (.ok false, w) =>
      match createStripe env email w with
      | (.error e, w) => some (.error e StatusInternalServerError, w)
      | (.ok (stripeCustomerID, subID, active), w) =>
        let (acctID, w) := NewObjectID env w
        let (created, w) := Now env w
        let doc : Customer :=
          { ID := acctID
            Email := email
            StripeID := stripeCustomerID
            SubscriptionID := subID
            IsActive := active
            Created := created }
        match CreateAccount env doc w with
        | (some e, w) => some (.error e StatusInternalServerError, w)
        | (none, w) =>
          let (dbName, w) := randStringRunes env 12 w
          match createDBName env fuel 10 dbName w with
          | none => none
          | some (.error e, w) => some (.error e StatusInternalServerError, w)
          | some (.ok dbName, w) =>
            let (baseID, w) := NewObjectID env w
            let base : BaseConfig :=
              { ID := baseID
                SBID := acctID
                Name := dbName
                IsActive := active
                Whitelist := ["localhost"] }
            match CreateBase env base w with
            | (some e, w) => some (.error e StatusInternalServerError, w)
            | (none, w) =>
              let db := dbName
              let (pw, w) := randStringRunes env 6 w
              match createAccountAndUser env db email pw 100 w with
              | (.error e, w) => some (.error e StatusInternalServerError, w)
              | (.ok _, w) =>
                match createSignUpURL env stripeCustomerID w with
                | (.error e, w) => some (.error e StatusInternalServerError, w)
                | (.ok signUpURL, w) =>
                  match FindTokenByEmail env db email w with
                  | (.error e, w) => some (.error e StatusInternalServerError, w)
                  | (.ok token, w) =>
                    let rootToken :=
                      token.ID.Hex ++ "|" ++ token.AccountID.Hex ++ "|" ++ token.Token
                    let body := mailBody base.ID.Hex email pw rootToken
                    let ed : SendMailData :=
                      { From := env.FromEmail
                        FromName := env.FromName
                        To := email
                        ToName := ""
                        Subject := "Your StaticBackend account"
                        HTMLBody := body
                        TextBody := env.StripHTML body }
                    match Send env ed w with
                    | (some e, w) => some (.error e StatusInternalServerError, w)
                    | (none, w) =>
                      if fromCLI then some (.respond StatusOK (.str signUpURL), w)
                      else if HasPrefix signUpURL "https" then
                        some (.redirect signUpURL StatusSeeOther, w)
                      else
                        some (.render "login.html"
                          { Type_ := "sucess"
                            Message := "We\x27ve emailed you all the information you need to get started." }, w)

/-! ### The real-time hub -/

namespace Hub

/-- Modelled from the spec: the Identity of section 3 (the hub's sources are
missing), `{account id, user id, role, email, session token}`. -/
structure Identity where
  accountID : String
  userID : String
  role : Int
  email : String
  token : String
deriving DecidableEq, Repr

/-- Modelled from the spec: the Envelope (Command) of sections 3 and 6,
`{sid, type, data, channel, token}`, as `hub_test.go` builds it. -/
structure Command where
  SID : String
  Type_ : String
  Data : String
  Channel : String
  Token : String
deriving DecidableEq, Repr

/-- Modelled from the spec: the envelope type `init` of section 6 (the constants
of package `internal` are missing). -/
def MsgTypeInit : String := "init"

/-- Modelled from the spec: the envelope type `echo` of section 6 (the constants
of package `internal` are missing). -/
def MsgTypeEcho : String := "echo"

/-- Modelled from the spec: the envelope type `auth` of section 6 (the constants
of package `internal` are missing). -/
def MsgTypeAuth : String := "auth"

/-- Modelled from the spec: the envelope type `token` of section 6 (the constants
of package `internal` are missing). -/
def MsgTypeToken : String := "token"

/-- Modelled from the spec: the envelope type `join` of section 6 (the constants
of package `internal` are missing). -/
def MsgTypeJoin : String := "join"

/-- Modelled from the spec: the envelope type `joined` of section 6 (the constants
of package `internal` are missing). -/
def MsgTypeJoined : String := "joined"

/-- Modelled from the spec: the envelope type `channel-in` of section 6 (the constants
of package `internal` are missing). -/
def MsgTypeChanIn : String := "channel-in"

/-- Modelled from the spec: the envelope type `channel-out` of section 6 (the constants
of package `internal` are missing). -/
def MsgTypeChanOut : String := "channel-out"

/-- Modelled from the spec: the envelope type `ok` of section 6 (the constants
of package `internal` are missing). -/
def MsgTypeOk : String := "ok"

/-- Modelled from the spec: the envelope type `db-created` of section 6 (the constants
of package `internal` are missing). -/
def MsgTypeDBCreated : String := "db-created"

/-- Modelled from the spec: the envelope type `db-updated` of section 6 (the constants
of package `internal` are missing). -/
def MsgTypeDBUpdated : String := "db-updated"

/-- Modelled from the spec: the envelope type `db-deleted` of section 6 (the constants
of package `internal` are missing). -/
def MsgTypeDBDeleted : String := "db-deleted"

/-- Modelled from the spec: the error reply type of section 6. -/
def MsgTypeError : String := "error"

/-- Modelled from the spec: the Connection of section 3, its SID, the Identity
(absent until auth succeeds) and the channel names it has joined. -/
structure Connection where
  sid : String
  identity : Option Identity
  channels : List String
deriving DecidableEq, Repr

/-- Modelled from the spec: a value of the shared cache of section 4.2, an
Identity under a session token or a tenant configuration under `base:` plus
the token. -/
inductive Cached where
  | identity (i : Identity)
  | tenant (conf : String)
deriving DecidableEq, Repr

/-- Modelled from the spec: the operation kind of a ChangeEvent. -/
inductive Operation where
  | created
  | updated
  | deleted
deriving DecidableEq, Repr

/-- Modelled from the spec: the ChangeEvent of section 3. -/
structure ChangeEvent where
  database : String
  collection : String
  operation : Operation
  document : String
deriving DecidableEq, Repr

/-- Modelled from the spec: an envelope handed to `send` of the connection
with SID `dest`. -/
structure Delivery where
  dest : String
  msg : Command
deriving DecidableEq, Repr

/-- Modelled from the spec: the collaborators of section 6 and the values the
spec leaves open: the Identity Service, the tenant configuration of a
credential, the session tokens the gateway mints, the SIDs assigned at connect
time, and the privilege threshold a suffix code stands for (section 9 leaves
the encoding open and asks for it to be configurable). -/
structure Collab where
  validate : String → Option Identity
  tenant : String → String
  mint : Nat → String
  sid : Nat → String
  threshold : Nat → Int

/-- Modelled from the spec: the state of the hub, the registry of live
connections, the channel directory (channel name to subscribed SIDs), the
session-token cache (value and expiry time) and the numbers of tokens minted
and of connections accepted. -/
structure State where
  conns : List Connection
  directory : String → List String
  cache : String → Option (Cached × Time)
  minted : Nat
  accepted : Nat

/-- Modelled from the spec: the hub before any connection. -/
def State.empty : State :=
  { conns := [], directory := fun _ => [], cache := fun _ => none, minted := 0, accepted := 0 }

/-- Modelled from the spec: the live connection with the given SID. -/
def State.find (h : State) (sid : String) : Option Connection :=
  h.conns.find? (fun c => c.sid == sid)

/-- Modelled from the spec: the fixed expiry of the cache, 12 hours. -/
def expiry : Nat := 12 * Hour

/-- Modelled from the spec: a cached value under `key` that has not expired at
time `now`. -/
def State.resolve (h : State) (key : String) (now : Time) : Option Cached :=
  match h.cache key with
  | some (v, expires) => if now < expires then some v else none
  | none => none

/-- Modelled from the spec: a session token resolving to an Identity. -/
def State.identityOf (h : State) (token : String) (now : Time) : Option Identity :=
  match h.resolve token now with
  | some (.identity i) => some i
  | _ => none

/-- Modelled from the spec: store `key` in the cache until `now + expiry`,
superseding an earlier entry. -/
def State.store (h : State) (key : String) (v : Cached) (now : Time) : State :=
  { h with cache := fun k => if k = key then some (v, now + expiry) else h.cache k }

/-- Modelled from the spec: a reply to the connection `sid`. -/
def reply (sid type data : String) : Delivery :=
  { dest := sid, msg := { SID := sid, Type_ := type, Data := data, Channel := "", Token := "" } }

/-- Modelled from the spec: on connect (section 4.1) the hub registers the
connection under a new SID and sends `init` carrying it. -/
def connect (env : Collab) (h : State) : State × List Delivery :=
  let sid := env.sid h.accepted
  ({ h with
      conns := h.conns ++ [{ sid := sid, identity := none, channels := [] }],
      accepted := h.accepted + 1 },
    [reply sid MsgTypeInit sid])

/-- Modelled from the spec: `authenticate` of section 4.2. On success a new
session token is minted, the cache maps it to the Identity and `base:` plus
the token to the tenant configuration, the Identity is attached to the
connection and the reply is `token`; on failure the reply is an error and
nothing changes. -/
def authenticate (env : Collab) (now : Time) (h : State) (c : Connection) (credential : String) :
    State × List Delivery :=
  match env.validate credential with
  | none => (h, [reply c.sid MsgTypeError "invalid credential"])
  | some i =>
    let token := env.mint h.minted
    let ident : Identity := { i with token := token }
    let h := h.store token (.identity ident) now
    let h := h.store ("base:" ++ token) (.tenant (env.tenant credential)) now
    ({ h with
        conns := h.conns.map (fun x => if x.sid = c.sid then { x with identity := some ident } else x),
        minted := h.minted + 1 },
      [reply c.sid MsgTypeToken token])

/-- Modelled from the spec: `join` of section 4.3. It requires a session token
that resolves to an Identity; joining a channel again changes nothing; the
reply is `joined`. -/
def join (now : Time) (h : State) (c : Connection) (channel token : String) :
    State × List Delivery :=
  match h.identityOf token now with
  | none => (h, [reply c.sid MsgTypeError "not authorized"])
  | some _ =>
    if c.sid ∈ h.directory channel then (h, [reply c.sid MsgTypeJoined channel])
    else
      ({ h with
          conns := h.conns.map (fun x =>
            if x.sid = c.sid then { x with channels := x.channels ++ [channel] } else x),
          directory := fun n => if n = channel then h.directory n ++ [c.sid] else h.directory n },
        [reply c.sid MsgTypeJoined channel])

/-- Modelled from the spec: `broadcast` of section 4.3, the envelope goes to
every live subscriber of the channel except the originating connection. -/
def broadcast (h : State) (channel : String) (msg : Command) (excludeSID : String) :
    List Delivery :=
  ((h.directory channel).filter (fun sid => sid != excludeSID && (h.find sid).isSome)).map
    (fun sid => { dest := sid, msg := msg })

/-- Modelled from the spec: the dispatcher of section 4.4, for an envelope
received on the connection `sid` at time `now`. The channel of a `join` is its
`data`, as in `hub_test.go`. -/
def dispatch (env : Collab) (now : Time) (h : State) (sid : String) (msg : Command) :
    State × List Delivery :=
  match h.find sid with
  | none => (h, [])
  | some c =>
    if msg.Type_ = MsgTypeEcho then (h, [reply sid MsgTypeEcho ("echo: " ++ msg.Data)])
    else if msg.Type_ = MsgTypeAuth then authenticate env now h c msg.Data
    else if msg.Type_ = MsgTypeJoin then
      match c.identity with
      | none => (h, [reply sid MsgTypeError "not authorized"])
      | some _ => join now h c msg.Data msg.Token
    else if msg.Type_ = MsgTypeChanIn then
      match c.identity with
      | none => (h, [reply sid MsgTypeError "not authorized"])
      | some i =>
        if msg.Token = i.token then
          (h, reply sid MsgTypeOk "" ::
            broadcast h msg.Channel
              { SID := sid, Type_ := MsgTypeChanOut, Data := msg.Data, Channel := msg.Channel,
                Token := "" } sid)
        else (h, [reply sid MsgTypeError "not authorized"])
    else (h, [reply sid MsgTypeError "unknown command"])

/-- Modelled from the spec: the value of a run of decimal digits. -/
def digitsValue (ds : List Char) : Nat :=
  ds.foldl (fun n c => 10 * n + (c.toNat - '0'.toNat)) 0

/-- Modelled from the spec: the code of the trailing suffix `_<code>_` of a
collection name (section 4.5), if the name carries one. -/
def requiredCode (name : String) : Option Nat :=
  match name.data.reverse with
  | '_' :: rest =>
    let digits := rest.takeWhile Char.isDigit
    match rest.dropWhile Char.isDigit with
    | '_' :: _ => if digits.isEmpty then none else some (digitsValue digits.reverse)
    | _ => none
  | _ => none

/-- Modelled from the spec: the Identity cached for a connection, the one its
session token resolves to. -/
def cachedIdentity (h : State) (now : Time) (c : Connection) : Option Identity :=
  match c.identity with
  | none => none
  | some i => h.identityOf i.token now

/-- Modelled from the spec: the permission filter of section 4.5. Without a
suffix every subscriber qualifies; with one, a subscriber qualifies when the
role of its cached Identity meets or exceeds the threshold of the code. -/
def permitted (env : Collab) (h : State) (now : Time) (c : Connection) (collection : String) :
    Bool :=
  match requiredCode collection with
  | none => true
  | some code =>
    match cachedIdentity h now c with
    | none => false
    | some i => decide (env.threshold code ≤ i.role)

/-- Modelled from the spec: the channel derived from a collection, a fixed
prefix joined with its name (`db-test` for `test` in `hub_test.go`). -/
def channelOf (collection : String) : String := "db-" ++ collection

/-- Modelled from the spec: the envelope type matching the operation. -/
def eventType : Operation → String
  | .created => MsgTypeDBCreated
  | .updated => MsgTypeDBUpdated
  | .deleted => MsgTypeDBDeleted

/-- Modelled from the spec: `publish` of section 4.5, the event goes to the
live subscribers of the derived channel that pass the permission filter;
the others get nothing. -/
def publish (env : Collab) (now : Time) (h : State) (ev : ChangeEvent) : List Delivery :=
  let channel := channelOf ev.collection
  let msg : Command :=
    { SID := "", Type_ := eventType ev.operation, Data := ev.document, Channel := channel,
      Token := "" }
  (h.directory channel).filterMap (fun sid =>
    match h.find sid with
    | none => none
    | some c => if permitted env h now c ev.collection then some { dest := sid, msg := msg } else none)

/-- Modelled from the spec: the envelopes of a list of deliveries that go to
the connection `sid`, in order. -/
def received (ds : List Delivery) (sid : String) : List Command :=
  (ds.filter (fun d => d.dest == sid)).map (fun d => d.msg)

/-- Modelled from the spec: `join` envelopes with the same token sent one
after the other on the connection `sid`, each with its time and channel; the
result is the list of replies. -/
def joins (env : Collab) (h : State) (sid token : String) :
    List (Time × String) → List (List Command)
  | [] => []
  | (now, channel) :: rest =>
    let msg : Command :=
      { SID := sid, Type_ := MsgTypeJoin, Data := channel, Channel := "", Token := token }
    let (h, ds) := dispatch env now h sid msg
    received ds sid :: joins env h sid token rest

/-- What `auth` establishes and `join` keeps: the connection is live and
authenticated, and the token resolves to an Identity until `expires`. -/
def Joinable (h : State) (sid token : String) (expires : Time) : Prop :=
  (∃ c i, h.find sid = some c ∧ c.identity = some i) ∧
  ∃ i, h.cache token = some (.identity i, expires)

end Hub

/-! ### Reading the record of outside calls -/

/-- The base configurations handed to `internal.CreateBase`, most recent
first. -/
def created (l : List Effect) : List BaseConfig :=
  l.filterMap (fun e => match e with
    | .createBase base _ => some base
    | _ => none)

/-- The `internal.DatabaseExists` checks with their results, most recent
first. -/
def checks (l : List Effect) : List (String × Except GoError Bool) :=
  l.filterMap (fun e => match e with
    | .databaseExists name res => some (name, res)
    | _ => none)

/-- The emails looked up with `internal.EmailExists`, most recent first. -/
def lookups (l : List Effect) : List String :=
  l.filterMap (fun e => match e with
    | .emailExists email _ => some email
    | _ => none)

/-- The record of a run of `internal.DatabaseExists` checks. -/
def checkEvents (cs : List (String × Except GoError Bool)) : List Effect :=
  cs.map (fun c => Effect.databaseExists c.1 c.2)

/-- A name as `randStringRunes(12)` generates it: 12 characters, each of
`letterRunes`. -/
def Generated (name : String) : Prop :=
  name.length = 12 ∧ ∀ c ∈ name.data, c ∈ letterRunes

/-- The user records of a world after a run that stores at most one, with the
given role and email, in `sb_tokens` of `db`. -/
def Stored (w w' : World) (db : String) (role : Int) (email : String) : Prop :=
  w'.tokens = w.tokens ∨
    ∃ tok : Token, tok.Role = role ∧ tok.Email = email ∧
      w'.tokens = fun n => if n = db then w.tokens n ++ [tok] else w.tokens n

/-- The email `accounts.create` validates: the form value on POST, the query
value otherwise, lower-cased. -/
def createEmail (env : Env) (r : Request) : String :=
  if r.Method == MethodPost then env.ToLower (r.Form "email")
  else env.ToLower (r.Query "email")

/-! ### Concrete collaborators, requests and worlds -/

namespace Scenario

/-- A tenant configuration. -/
def conf : BaseConfig :=
  { ID := { Hex := "b0" }, SBID := { Hex := "c0" }, Name := "tenantdb", IsActive := true,
    Whitelist := ["localhost"] }

/-- The identity of an admin caller. -/
def adminAuth : Auth :=
  { AccountID := { Hex := "c0" }, UserID := { Hex := "a1" }, Email := "root@example.com",
    Role := 100, Token := "s1" }

/-- The identity of a registered user. -/
def userAuth : Auth :=
  { AccountID := { Hex := "c0" }, UserID := { Hex := "a2" }, Email := "ada@example.com",
    Role := 0, Token := "s2" }

/-- ASCII lower-casing, character by character. -/
def lower (s : String) : String := String.mk (s.data.map Char.toLower)

/-- An environment in which nothing fails: the key of the caller is the query
value `key`, a body is the email of a login with password `pw`, the second
candidate database name is free, and Stripe is off. -/
def env : Env :=
  { ToLower := lower
    Extract := fun r _ =>
      if r.Query "key" = "admin" then .ok (conf, adminAuth)
      else if r.Query "key" = "user" then .ok (conf, userAuth)
      else .error "invalid key"
    DecodeLogin := fun body =>
      if body = "" then .error "EOF" else .ok { Email := body, Password := "pw" }
    DecodeSetRole := fun body =>
      if body = "" then .error "EOF" else .ok { Email := body, Role := 50 }
    DecodeSetPassword := fun body =>
      if body = "" then .error "EOF"
      else .ok { Email := body, OldPassword := "pw", NewPassword := "pw2" }
    dbErr := fun _ => none
    cacheErr := fun _ => none
    CompareHashAndPassword := fun hash pw => hash == "h:" ++ pw
    GenerateFromPassword := fun _ pw => .ok ("h:" ++ pw)
    NewObjectID := fun t => { Hex := String.mk (List.replicate (t + 1) 'f') }
    Now := fun t => 1600000000 * Second + t
    Intn := fun t => 3 * t
    Sign := fun pl _ => .ok ("jwt:" ++ pl.Token)
    HashSecret := "secret"
    EmailExists := fun _ _ => .ok false
    CreateAccount := fun _ _ => none
    DatabaseExists := fun t _ => .ok (decide (t < 20))
    CreateBase := fun _ _ => none
    FindTokenByEmail := fun _ _ email =>
      .ok { ID := { Hex := "a1" }, AccountID := { Hex := "c0" }, Email := email, Token := "s1",
            Password := "h", Role := 100 }
    CustomerNew := fun _ _ => .ok "cus"
    SubNew := fun _ _ _ => .ok "sub"
    SessionNew := fun _ _ => .ok "https://billing"
    Send := fun _ _ => none
    StripHTML := fun s => s
    AppEnv := "dev"
    AppEnvProd := "prod"
    Getenv := fun _ => ""
    FromEmail := "from@example.com"
    FromName := "StaticBackend" }

/-- The world before any request. -/
def world : World :=
  { tokens := fun _ => [], accounts := fun _ => [], cache := fun _ => none, log := [], tick := 0 }

/-- A request with the given method, key, email (in the form, the query and
the body). -/
def request (method key email : String) : Request :=
  { Method := method
    Form := fun n => if n = "email" then email else ""
    Query := fun n => if n = "email" then email else if n = "key" then key else ""
    Body := email }

/-- The world after `Ada@Example.com` has registered in the tenant database. -/
def registered : World :=
  (register env (request "POST" "user" "Ada@Example.com") world).2

/-- The environment `env` with the cache failing at the call of tick 16, the
second cache write of a login that starts at tick 12. -/
def envCacheDown : Env :=
  { env with cacheErr := fun t => if t = 16 then some "cache down" else none }

/-- The environment `env` with the MongoDB driver failing at the call of tick
12, the count query of a registration that starts in `registered`. -/
def envDriverDown : Env :=
  { env with dbErr := fun t => if t = 12 then some "driver down" else none }

/-- The user record that registration stored. -/
def ada : Token :=
  { ID := { Hex := "fffff" }, AccountID := { Hex := "ff" }, Email := "ada@example.com",
    Token := "ffffff", Password := "h:pw", Role := 0 }

/-- The run of `accounts.create` for `Root@Example.com`, with fuel for two
iterations of the unique-name loop. -/
def createRun : Response × World :=
  match create env 2 (request "POST" "" "Root@Example.com") world with
  | some p => p
  | none => (.error "out of fuel" 0, world)

end Scenario

namespace Hub.Scenario

/-- Modelled from the spec: collaborators for the scenarios of `hub_test.go`,
an admin credential of role 100, a user credential of role 0, and the code 700
standing for the threshold 100. -/
def collab : Collab :=
  { validate := fun c =>
      if c = "admin-key" then
        some { accountID := "acct", userID := "admin", role := 100, email := "root@example.com",
               token := "" }
      else if c = "user-key" then
        some { accountID := "acct", userID := "user", role := 0, email := "ada@example.com",
               token := "" }
      else none
    tenant := fun _ => "tenantdb"
    mint := fun n => String.mk (List.replicate (n + 1) 't')
    sid := fun n => String.mk (List.replicate (n + 1) 's')
    threshold := fun code => (code : Int) / 7 }

/-- Modelled from the spec: an envelope from a client. -/
def envelope (sid type data channel token : String) : Command :=
  { SID := sid, Type_ := type, Data := data, Channel := channel, Token := token }

/-- Modelled from the spec: two clients have connected; their SIDs are `s` and
`ss`. -/
def connected : State := (connect collab (connect collab State.empty).1).1

/-- Modelled from the spec: the scenario of `hub_test.go`, the first client
authenticates as admin and the second as user (their session tokens are `t`
and `tt`), and both join `channel`. -/
def joined (channel : String) : State :=
  let h := (dispatch collab 0 connected "s" (envelope "s" "auth" "admin-key" "" "")).1
  let h := (dispatch collab 1 h "s" (envelope "s" "join" channel "" "t")).1
  let h := (dispatch collab 2 h "ss" (envelope "ss" "auth" "user-key" "" "")).1
  (dispatch collab 3 h "ss" (envelope "ss" "join" channel "" "tt")).1

/-- Modelled from the spec: the admin connection of the scenario. -/
def admin (channel : String) : Connection :=
  { sid := "s"
    identity := some
      { accountID := "acct", userID := "admin", role := 100, email := "root@example.com",
        token := "t" }
    channels := [channel] }

/-- Modelled from the spec: the user connection of the scenario. -/
def user (channel : String) : Connection :=
  { sid := "ss"
    identity := some
      { accountID := "acct", userID := "user", role := 0, email := "ada@example.com",
        token := "tt" }
    channels := [channel] }

end Hub.Scenario

/-! ### Lemmas on strings -/

/-- Searching for the one-character string `a` fails exactly when `a` does not
occur. -/
theorem indexFrom_singleton (a : Char) (cs : List Char) (off : Nat) :
    indexFrom [a] cs off = -1 ↔ a ∉ cs := by
  induction cs generalizing off with
  | nil => simp [indexFrom]
  | cons c cs ih =>
    unfold indexFrom
    by_cases h : c = a
    · subst h
      simp [List.isPrefixOf]
    · have h' : ¬ a = c := fun e => h e.symm
      simp [List.isPrefixOf, h, h', ih]

theorem Index_at (s : String) : Index s "@" = -1 ↔ '@' ∉ s.data := by
  unfold Index
  exact indexFrom_singleton '@' s.data 0

theorem Index_dot (s : String) : Index s "." = -1 ↔ '.' ∉ s.data := by
  unfold Index
  exact indexFrom_singleton '.' s.data 0

/-! ### The JWT payload -/

/-- C9: for every token `t` and every clock reading `now`, the payload that
`getJWT` signs carries `t` unchanged in `Token`, the issuer `StaticBackend`,
the issued-at date of `now` and an expiration date exactly 12 hours (43200
seconds) after the issued-at date. -/
theorem getJWT_signs_payload (env : Env) (t : String) (w : World) :
    ∃ pl : JWTPayload,
      getJWT env t w = (env.Sign pl env.HashSecret, w.next.next) ∧
      pl = getJWT.pl (env.Now w.tick) (env.NewObjectID (w.tick + 1)) t ∧
      pl.Token = t ∧
      pl.Payload.Issuer = "StaticBackend" ∧
      pl.Payload.IssuedAt = NumericDate (env.Now w.tick) ∧
      pl.Payload.ExpirationTime = NumericDate ((env.Now w.tick).Add (12 * Hour)) ∧
      pl.Payload.ExpirationTime = pl.Payload.IssuedAt + 12 * 3600 := by
  refine ⟨_, rfl, rfl, rfl, rfl, rfl, rfl, ?_⟩
  show NumericDate (Time.Add (env.Now w.tick) (12 * Hour)) = NumericDate (env.Now w.tick) + 12 * 3600
  unfold NumericDate Time.Add Hour Minute Second
  omega

/-! ### `membership.login` -/

theorem SetTyped_ok {env : Env} {key : String} {v : CacheVal} {w w' : World}
    (h : SetTyped env key v w = (none, w')) :
    w'.cache = (fun k => if k = key then some v else w.cache k) ∧ w'.tokens = w.tokens ∧
      w'.accounts = w.accounts ∧ w'.log = w.log := by
  unfold SetTyped at h
  split at h
  · simp at h
  · simp only [Prod.mk.injEq, true_and] at h
    subst h
    exact ⟨rfl, rfl, rfl, rfl⟩

theorem sessionKey_ne_base (t : String) : t ≠ "base:" ++ t := by
  intro h
  have h2 := congrArg String.length h
  rw [String.length_append] at h2
  have : ("base:" : String).length = 5 := by decide
  omega

theorem validateUserPassword_ok {env : Env} {db email password : String} {w w' : World}
    {tok : Token} (h : validateUserPassword env db email password w = (.ok tok, w')) :
    (w.tokens db).find? (fun t => t.Email == env.ToLower email) = some tok ∧
      env.CompareHashAndPassword tok.Password password = true ∧ w' = w.next := by
  unfold validateUserPassword FindOne at h
  cases hdb : env.dbErr w.tick with
  | some e => simp [hdb] at h
  | none =>
    cases hf : (w.tokens db).find? (fun t => t.Email == env.ToLower email) with
    | none => simp [hdb, hf] at h
    | some t =>
      simp only [hdb, hf] at h
      split at h
      · rename_i hpw
        simp only [Prod.mk.injEq, Except.ok.injEq] at h
        obtain ⟨rfl, rfl⟩ := h
        exact ⟨rfl, hpw, rfl⟩
      · simp at h

/-- C5: for every login request that succeeds (status 200), the request
carried a tenant configuration `conf` and a body `l`, the first user record
`tok` of `sb_tokens` whose email is the email of `l` lower-cased (by `login`,
and once more by `validateUserPassword`) passed the password check, and the
cache afterwards maps `t = tok.ID.Hex ++ "|" ++
tok.Token` to the Identity with the account id, user id, email, role and token
of `tok`, and `"base:" ++ t` to `conf`; and when a login has got as far as the
cache writes and either write fails, the response is the 500 error of that
write, not the JWT. -/
theorem login_cache (env : Env) (r : Request) (w : World) :
    ((login env r w).1.status = StatusOK →
      ∃ conf a l tok jwt,
        env.Extract r false = .ok (conf, a) ∧ env.DecodeLogin r.Body = .ok l ∧
        (w.tokens conf.Name).find?
          (fun t => t.Email == env.ToLower (env.ToLower l.Email)) = some tok ∧
        ((∀ s, env.ToLower (env.ToLower s) = env.ToLower s) → tok.Email = env.ToLower l.Email) ∧
        env.CompareHashAndPassword tok.Password l.Password = true ∧
        (login env r w).1 = .respond StatusOK (.str jwt) ∧
        (login env r w).2.cache (tok.ID.Hex ++ "|" ++ tok.Token) =
          some (.auth
            { AccountID := tok.AccountID
              UserID := tok.ID
              Email := tok.Email
              Role := tok.Role
              Token := tok.Token }) ∧
        (login env r w).2.cache ("base:" ++ (tok.ID.Hex ++ "|" ++ tok.Token)) =
          some (.conf conf)) ∧
    (∀ conf a l tok jwt w1 w2,
      env.Extract r false = .ok (conf, a) → env.DecodeLogin r.Body = .ok l →
      validateUserPassword env conf.Name (env.ToLower l.Email) l.Password w = (.ok tok, w1) →
      getJWT env (sessionKey tok) w1 = (.ok jwt, w2) →
      (∀ e w3,
        SetTyped env (sessionKey tok)
          (.auth
            { AccountID := tok.AccountID
              UserID := tok.ID
              Email := tok.Email
              Role := tok.Role
              Token := tok.Token }) w2 = (some e, w3) →
        login env r w = (.error e StatusInternalServerError, w3)) ∧
      (∀ e w3 w4,
        SetTyped env (sessionKey tok)
          (.auth
            { AccountID := tok.AccountID
              UserID := tok.ID
              Email := tok.Email
              Role := tok.Role
              Token := tok.Token }) w2 = (none, w3) →
        SetTyped env ("base:" ++ sessionKey tok) (.conf conf) w3 = (some e, w4) →
        login env r w = (.error e StatusInternalServerError, w4))) := by
  constructor
  · intro hs
    have hst : ∀ e, ¬ (Response.error e StatusUnauthorized).status = StatusOK ∧
        ¬ (Response.error e StatusBadRequest).status = StatusOK ∧
        ¬ (Response.error e StatusInternalServerError).status = StatusOK := by
      intro e
      simp [Response.status, StatusOK, StatusUnauthorized, StatusBadRequest,
        StatusInternalServerError]
    rcases hex : env.Extract r false with _ | ⟨conf, a⟩
    · simp only [login, hex] at hs
      exact absurd hs (hst _).1
    rcases hdec : env.DecodeLogin r.Body with _ | l
    · simp only [login, hex, hdec] at hs
      exact absurd hs (hst _).2.1
    rcases hval : validateUserPassword env conf.Name (env.ToLower l.Email) l.Password w
      with ⟨_ | tok, w1⟩
    · simp only [login, hex, hdec, hval] at hs
      exact absurd hs (hst _).2.2
    rcases hjwt : getJWT env (sessionKey tok) w1 with ⟨_ | jwt, w2⟩
    · simp only [login, hex, hdec, hval, hjwt] at hs
      exact absurd hs (hst _).2.2
    rcases hset1 : SetTyped env (sessionKey tok)
        (.auth
          { AccountID := tok.AccountID
            UserID := tok.ID
            Email := tok.Email
            Role := tok.Role
            Token := tok.Token }) w2 with ⟨_ | e, w3⟩
    swap
    · simp only [login, hex, hdec, hval, hjwt, hset1] at hs
      exact absurd hs (hst _).2.2
    rcases hset2 : SetTyped env ("base:" ++ sessionKey tok) (.conf conf) w3 with ⟨_ | e, w4⟩
    swap
    · simp only [login, hex, hdec, hval, hjwt, hset1, hset2] at hs
      exact absurd hs (hst _).2.2
    unfold login
    obtain ⟨hfind, hpw, _⟩ := validateUserPassword_ok hval
    obtain ⟨hc3, _⟩ := SetTyped_ok hset1
    obtain ⟨hc4, _⟩ := SetTyped_ok hset2
    refine ⟨conf, a, l, tok, jwt, rfl, rfl, hfind, ?_, hpw, ?_, ?_, ?_⟩
    · intro hidem
      have := List.find?_some hfind
      simp only [beq_iff_eq] at this
      rw [this, hidem]
    · simp only [hex, hdec, hval, hjwt, hset1, hset2]
    · simp only [hex, hdec, hval, hjwt, hset1, hset2, hc4, hc3]
      simp [sessionKey, sessionKey_ne_base]
    · simp only [hex, hdec, hval, hjwt, hset1, hset2, hc4, hc3]
      simp [sessionKey]
  · intro conf a l tok jwt w1 w2 hex hdec hval hjwt
    constructor
    · intro e w3 hset1
      unfold login
      simp only [hex, hdec, hval, hjwt, hset1]
    · intro e w3 w4 hset1 hset2
      unfold login
      simp only [hex, hdec, hval, hjwt, hset1, hset2]

/-! ### What each step of `accounts.create` leaves alone -/

theorem randRunes_world (env : Env) (n : Nat) (w : World) :
    (randRunes env n w).2 = { w with tick := w.tick + n } := by
  induction n generalizing w with
  | zero => rfl
  | succ n ih =>
    unfold randRunes
    simp only [Intn, World.next, ih]
    congr 1
    omega

theorem randRunes_length (env : Env) (n : Nat) (w : World) :
    (randRunes env n w).1.length = n := by
  induction n generalizing w with
  | zero => rfl
  | succ n ih =>
    unfold randRunes
    simp only [List.length_cons, ih]

theorem getD_letterRunes (i : Nat) : letterRunes.getD i 'a' ∈ letterRunes := by
  by_cases h : i < letterRunes.length
  · rw [List.getD_eq_getElem _ _ h]
    exact List.getElem_mem h
  · rw [List.getD_eq_default _ _ (Nat.le_of_not_lt h)]
    decide

theorem randRunes_mem (env : Env) (n : Nat) (w : World) :
    ∀ c ∈ (randRunes env n w).1, c ∈ letterRunes := by
  induction n generalizing w with
  | zero => intro c hc; cases hc
  | succ n ih =>
    unfold randRunes
    intro c hc
    simp only [List.mem_cons] at hc
    rcases hc with rfl | hc
    · exact getD_letterRunes _
    · exact ih _ c hc

theorem randStringRunes_world (env : Env) (n : Nat) (w : World) :
    (randStringRunes env n w).2 = { w with tick := w.tick + n } := by
  unfold randStringRunes
  exact randRunes_world env n w

theorem randRunes_generated (env : Env) (w : World) :
    Generated (String.mk (randRunes env 12 w).1) :=
  ⟨randRunes_length env 12 w, randRunes_mem env 12 w⟩

theorem randStringRunes_generated (env : Env) (w : World) :
    Generated (randStringRunes env 12 w).1 := by
  unfold randStringRunes
  exact randRunes_generated env w

@[simp]
theorem created_checkEvents (cs : List (String × Except GoError Bool)) :
    created (checkEvents cs) = [] := by
  induction cs with
  | nil => rfl
  | cons c cs ih => simp [created, checkEvents]

@[simp]
theorem checks_checkEvents (cs : List (String × Except GoError Bool)) :
    checks (checkEvents cs) = cs := by
  induction cs with
  | nil => rfl
  | cons c cs ih => simpa [checks, checkEvents] using ih

@[simp]
theorem lookups_checkEvents (cs : List (String × Except GoError Bool)) :
    lookups (checkEvents cs) = [] := by
  induction cs with
  | nil => rfl
  | cons c cs ih => simp [lookups, checkEvents]

theorem created_append (a b : List Effect) : created (a ++ b) = created a ++ created b := by
  simp [created]

theorem checks_append (a b : List Effect) : checks (a ++ b) = checks a ++ checks b := by
  simp [checks]

theorem lookups_append (a b : List Effect) : lookups (a ++ b) = lookups a ++ lookups b := by
  simp [lookups]

/-- The unique-name loop: it only makes `DatabaseExists` checks; the last one
decides the result, all earlier ones answered `true`; a name it returns is the
one of the last check, which answered `false`, and is a generated name if the
first candidate was. -/
theorem createDBName_spec (env : Env) (fuel : Nat) (retry : Int) (name : String) (w : World)
    (res : Except GoError String) (w' : World)
    (h : createDBName env fuel retry name w = some (res, w')) :
    ∃ n r rest,
      w'.log = checkEvents ((n, r) :: rest) ++ w.log ∧
      w'.tokens = w.tokens ∧ w'.accounts = w.accounts ∧ w'.cache = w.cache ∧
      (∀ c ∈ rest, c.2 = .ok true) ∧
      ((res = .ok n ∧ r = .ok false ∧ (Generated name → Generated n)) ∨
        (∃ e, res = .error e ∧ r = .error e)) := by
  induction fuel generalizing retry name w with
  | zero => simp [createDBName] at h
  | succ fuel ih =>
    unfold createDBName at h
    simp only [DatabaseExists] at h
    rcases hr : env.DatabaseExists w.tick name with e | b
    · simp only [hr, Option.some.injEq, Prod.mk.injEq] at h
      obtain ⟨rfl, rfl⟩ := h
      exact ⟨name, .error e, [], rfl, rfl, rfl, rfl, by simp, Or.inr ⟨e, rfl, rfl⟩⟩
    · cases b with
      | false =>
        simp only [hr, Option.some.injEq, Prod.mk.injEq] at h
        obtain ⟨rfl, rfl⟩ := h
        exact ⟨name, .ok false, [], rfl, rfl, rfl, rfl, by simp,
          Or.inl ⟨rfl, rfl, fun hg => hg⟩⟩
      | true =>
        simp only [hr] at h
        obtain ⟨n, r, rest, hlog, ht, ha, hc, hrest, hres⟩ := ih _ _ _ h
        refine ⟨n, r, rest ++ [(name, .ok true)], ?_, ?_, ?_, ?_, ?_, ?_⟩
        · rw [hlog, randStringRunes_world]
          simp [checkEvents, World.record]
        · rw [ht, randStringRunes_world]; rfl
        · rw [ha, randStringRunes_world]; rfl
        · rw [hc, randStringRunes_world]; rfl
        · intro c hc'
          simp only [List.mem_append, List.mem_singleton] at hc'
          rcases hc' with hc' | rfl
          · exact hrest c hc'
          · rfl
        · rcases hres with ⟨h1, h2, h3⟩ | h4
          · exact Or.inl ⟨h1, h2, fun _ => h3 (randStringRunes_generated env _)⟩
          · exact Or.inr h4


theorem cons_eq_append_iff {α : Type} (a : α) (l bs : List α) :
    a :: l = bs ++ l ↔ bs = [a] := by
  rw [show a :: l = [a] ++ l from rfl, List.append_left_inj, eq_comm]

theorem cons_append_eq_append_iff {α : Type} (a : α) (rest l cs : List α) :
    a :: (rest ++ l) = cs ++ l ↔ cs = a :: rest := by
  rw [show a :: (rest ++ l) = (a :: rest) ++ l from rfl, List.append_left_inj, eq_comm]

theorem created_cons (e : Effect) (l : List Effect) :
    created (e :: l) =
      (match e with
        | .createBase base _ => [base]
        | _ => []) ++ created l := by
  cases e <;> simp [created]

theorem checks_cons (e : Effect) (l : List Effect) :
    checks (e :: l) =
      (match e with
        | .databaseExists name res => [(name, res)]
        | _ => []) ++ checks l := by
  cases e <;> simp [checks]

theorem lookups_cons (e : Effect) (l : List Effect) :
    lookups (e :: l) =
      (match e with
        | .emailExists email _ => [email]
        | _ => []) ++ lookups l := by
  cases e <;> simp [lookups]

/-- The Stripe block touches neither the collections nor the cache and records
only Stripe calls. -/
theorem createStripe_frame (env : Env) (email : String) (w : World) :
    (createStripe env email w).2.tokens = w.tokens ∧
    (createStripe env email w).2.accounts = w.accounts ∧
    (createStripe env email w).2.cache = w.cache ∧
    created (createStripe env email w).2.log = created w.log ∧
    checks (createStripe env email w).2.log = checks w.log ∧
    lookups (createStripe env email w).2.log = lookups w.log ∧
    w.log <:+ (createStripe env email w).2.log := by
  unfold createStripe
  split
  · simp only [CustomerNew, SubNew]
    rcases env.CustomerNew w.tick email with e | cus
    · simp [World.record, created_cons, checks_cons, lookups_cons]
    · simp only
      rcases env.SubNew (w.record _).tick cus (env.Getenv "STRIPE_PRICEID") with e | sub
      · simp [World.record, created_cons, checks_cons, lookups_cons, List.suffix_cons_iff]
      · simp [World.record, created_cons, checks_cons, lookups_cons, List.suffix_cons_iff]
  · simp

/-- The billing-portal block touches neither the collections nor the cache and
records only a Stripe call. -/
theorem createSignUpURL_frame (env : Env) (cus : String) (w : World) :
    (createSignUpURL env cus w).2.tokens = w.tokens ∧
    (createSignUpURL env cus w).2.accounts = w.accounts ∧
    (createSignUpURL env cus w).2.cache = w.cache ∧
    created (createSignUpURL env cus w).2.log = created w.log ∧
    checks (createSignUpURL env cus w).2.log = checks w.log ∧
    lookups (createSignUpURL env cus w).2.log = lookups w.log ∧
    w.log <:+ (createSignUpURL env cus w).2.log := by
  unfold createSignUpURL
  split
  · simp only [SessionNew]
    rcases env.SessionNew w.tick cus with e | url
    · simp [World.record, created_cons, checks_cons, lookups_cons]
    · simp [World.record, created_cons, checks_cons, lookups_cons]
  · simp

/-! ### Projections of a world after a call -/

theorem next_tokens (w : World) : w.next.tokens = w.tokens := rfl
theorem next_accounts (w : World) : w.next.accounts = w.accounts := rfl
theorem next_cache (w : World) : w.next.cache = w.cache := rfl
theorem next_log (w : World) : w.next.log = w.log := rfl
theorem record_tokens (w : World) (e : Effect) : (w.record e).tokens = w.tokens := rfl
theorem record_accounts (w : World) (e : Effect) : (w.record e).accounts = w.accounts := rfl
theorem record_cache (w : World) (e : Effect) : (w.record e).cache = w.cache := rfl
theorem record_log (w : World) (e : Effect) : (w.record e).log = e :: w.log := rfl

/-! ### What each step of `membership.go` does to the world -/

theorem getJWT_world (env : Env) (token : String) (w : World) :
    (getJWT env token w).2 = w.next.next := rfl

theorem getJWT_iff (env : Env) (token : String) (w w' : World) (res : Except GoError String) :
    getJWT env token w = (res, w') ↔ (getJWT env token w).1 = res ∧ w' = w.next.next := by
  rw [Prod.ext_iff, getJWT_world]
  exact ⟨fun h => ⟨h.1, h.2.symm⟩, fun h => ⟨h.1, h.2.symm⟩⟩

theorem SetTyped_none (env : Env) (key : String) (v : CacheVal) (w w' : World) :
    SetTyped env key v w = (none, w') ↔
      env.cacheErr w.tick = none ∧
      w' = { w with cache := fun k => if k = key then some v else w.cache k, tick := w.tick + 1 } := by
  unfold SetTyped
  cases env.cacheErr w.tick <;> simp [eq_comm]

theorem SetTyped_some (env : Env) (key : String) (v : CacheVal) (w w' : World) (e : GoError) :
    SetTyped env key v w = (some e, w') ↔ env.cacheErr w.tick = some e ∧ w' = w.next := by
  unfold SetTyped
  cases env.cacheErr w.tick <;> simp [eq_comm]

theorem InsertOneToken_none (env : Env) (db : String) (tok : Token) (w w' : World) :
    InsertOneToken env db tok w = (none, w') ↔
      env.dbErr w.tick = none ∧
      w' = { w with
        tokens := fun n => if n = db then w.tokens n ++ [tok] else w.tokens n,
        tick := w.tick + 1 } := by
  unfold InsertOneToken
  cases env.dbErr w.tick <;> simp [eq_comm]

theorem InsertOneToken_some (env : Env) (db : String) (tok : Token) (w w' : World)
    (e : GoError) :
    InsertOneToken env db tok w = (some e, w') ↔ env.dbErr w.tick = some e ∧ w' = w.next := by
  unfold InsertOneToken
  cases env.dbErr w.tick <;> simp [eq_comm]

theorem InsertOneAccount_none (env : Env) (db : String) (a : Account) (w w' : World) :
    InsertOneAccount env db a w = (none, w') ↔
      env.dbErr w.tick = none ∧
      w' = { w with
        accounts := fun n => if n = db then w.accounts n ++ [a] else w.accounts n,
        tick := w.tick + 1 } := by
  unfold InsertOneAccount
  cases env.dbErr w.tick <;> simp [eq_comm]

theorem InsertOneAccount_some (env : Env) (db : String) (a : Account) (w w' : World)
    (e : GoError) :
    InsertOneAccount env db a w = (some e, w') ↔ env.dbErr w.tick = some e ∧ w' = w.next := by
  unfold InsertOneAccount
  cases env.dbErr w.tick <;> simp [eq_comm]

theorem UpdateOne_none (env : Env) (db : String) (filter : Token → Bool)
    (update : Token → Token) (w w' : World) :
    UpdateOne env db filter update w = (none, w') ↔
      env.dbErr w.tick = none ∧
      w' = { w with
        tokens := fun n =>
          if n = db then updateFirst filter update (w.tokens n) else w.tokens n,
        tick := w.tick + 1 } := by
  unfold UpdateOne
  cases env.dbErr w.tick <;> simp [eq_comm]

theorem UpdateOne_some (env : Env) (db : String) (filter : Token → Bool)
    (update : Token → Token) (w w' : World) (e : GoError) :
    UpdateOne env db filter update w = (some e, w') ↔ env.dbErr w.tick = some e ∧ w' = w.next := by
  unfold UpdateOne
  cases env.dbErr w.tick <;> simp [eq_comm]

theorem CountDocuments_world (env : Env) (db email : String) (w : World) :
    (CountDocuments env db email w).2 = w.next := by
  unfold CountDocuments
  cases env.dbErr w.tick <;> rfl

theorem CountDocuments_iff (env : Env) (db email : String) (w w' : World)
    (res : Except GoError Nat) :
    CountDocuments env db email w = (res, w') ↔
      (CountDocuments env db email w).1 = res ∧ w' = w.next := by
  rw [Prod.ext_iff, CountDocuments_world]
  exact ⟨fun h => ⟨h.1, h.2.symm⟩, fun h => ⟨h.1, h.2.symm⟩⟩

theorem CountDocuments_ok (env : Env) (db email : String) (w : World) (n : Nat)
    (h : (CountDocuments env db email w).1 = .ok n) :
    n = (w.tokens db).countP (fun t => t.Email == email) := by
  unfold CountDocuments at h
  cases hd : env.dbErr w.tick <;> simp [hd] at h
  exact h.symm

theorem FindOne_world (env : Env) (db email : String) (w : World) :
    (FindOne env db email w).2 = w.next := by
  unfold FindOne
  cases env.dbErr w.tick
  · simp only
    cases (w.tokens db).find? (fun t => t.Email == email) <;> rfl
  · rfl

theorem validateUserPassword_world (env : Env) (db email password : String) (w : World) :
    (validateUserPassword env db email password w).2 = w.next := by
  have := FindOne_world env db (env.ToLower email) w
  simp only [validateUserPassword]
  rcases hf : FindOne env db (env.ToLower email) w with ⟨_ | tok, w1⟩ <;> rw [hf] at this <;>
    simp only at this ⊢
  · exact this
  · split <;> exact this

theorem validateUserPassword_iff (env : Env) (db email password : String) (w w' : World)
    (res : Except GoError Token) :
    validateUserPassword env db email password w = (res, w') ↔
      (validateUserPassword env db email password w).1 = res ∧ w' = w.next := by
  rw [Prod.ext_iff, validateUserPassword_world]
  exact ⟨fun h => ⟨h.1, h.2.symm⟩, fun h => ⟨h.1, h.2.symm⟩⟩

theorem randStringRunes_eq (env : Env) (n : Nat) (w : World) :
    randStringRunes env n w =
      (String.mk (randRunes env n w).1, { w with tick := w.tick + n }) := by
  unfold randStringRunes
  simp only [randRunes_world]

/-- What `createUser` stores: at most one user record, in `sb_tokens` of `db`,
with the given role and email; exactly the returned record when it succeeds.
It leaves `sb_accounts` and the record of outside calls alone. -/
theorem createUser_spec (env : Env) (db : String) (acct : ObjectID) (email password : String)
    (role : Int) (w : World) (res : Except GoError (String × Token)) (w' : World)
    (h : createUser env db acct email password role w = (res, w')) :
    Stored w w' db role email ∧
    (∀ jwt tok, res = .ok (jwt, tok) → tok.Role = role ∧ tok.Email = email ∧
      w'.tokens = fun n => if n = db then w.tokens n ++ [tok] else w.tokens n) ∧
    w'.accounts = w.accounts ∧ w'.log = w.log := by
  simp only [createUser, NewObjectID] at h
  repeat' split at h
  all_goals simp only [getJWT_iff, SetTyped_none, SetTyped_some, InsertOneToken_none,
    InsertOneToken_some, Prod.mk.injEq] at *
  all_goals casesm* _ ∧ _
  all_goals subst_vars
  all_goals first
    | exact ⟨Or.inl rfl, by simp, rfl, rfl⟩
    | (refine ⟨Or.inr ⟨_, rfl, rfl, rfl⟩, ?_, rfl, rfl⟩
       intro jwt tok htok
       first
       | (simp only [Except.ok.injEq, Prod.mk.injEq] at htok
          obtain ⟨_, rfl⟩ := htok
          exact ⟨rfl, rfl, rfl⟩)
       | cases htok)

/-- What `createAccountAndUser` stores: as `createUser`. -/
theorem createAccountAndUser_spec (env : Env) (db email password : String)
    (role : Int) (w : World) (res : Except GoError (String × Token)) (w' : World)
    (h : createAccountAndUser env db email password role w = (res, w')) :
    Stored w w' db role email ∧
    (∀ jwt tok, res = .ok (jwt, tok) → tok.Role = role ∧ tok.Email = email ∧
      w'.tokens = fun n => if n = db then w.tokens n ++ [tok] else w.tokens n) ∧
    w'.log = w.log := by
  simp only [createAccountAndUser, NewObjectID] at h
  repeat' split at h
  all_goals simp only [InsertOneAccount_none, InsertOneAccount_some, Prod.mk.injEq] at *
  all_goals casesm* _ ∧ _
  all_goals try (have hcu := createUser_spec _ _ _ _ _ _ _ _ _ ‹_›)
  all_goals subst_vars
  · exact ⟨Or.inl rfl, by simp, rfl⟩
  · exact ⟨hcu.1, by simp, hcu.2.2.2⟩
  · exact ⟨hcu.1, hcu.2.1, hcu.2.2.2⟩

/-! ### `accounts.create` -/

theorem createStripe_rel {env : Env} {email : String} {w w' : World}
    {res : Except GoError (String × String × Bool)}
    (h : createStripe env email w = (res, w')) :
    w'.tokens = w.tokens ∧ w'.accounts = w.accounts ∧ w'.cache = w.cache ∧
    created w'.log = created w.log ∧ checks w'.log = checks w.log ∧
    lookups w'.log = lookups w.log ∧ w.log <:+ w'.log := by
  have := createStripe_frame env email w
  rw [h] at this
  exact this

theorem createSignUpURL_rel {env : Env} {cus : String} {w w' : World}
    {res : Except GoError String}
    (h : createSignUpURL env cus w = (res, w')) :
    w'.tokens = w.tokens ∧ w'.accounts = w.accounts ∧ w'.cache = w.cache ∧
    created w'.log = created w.log ∧ checks w'.log = checks w.log ∧
    lookups w'.log = lookups w.log ∧ w.log <:+ w'.log := by
  have := createSignUpURL_frame env cus w
  rw [h] at this
  exact this

theorem createEmail_eq (env : Env) (r : Request) :
    (if (r.Method == MethodPost) = true then env.ToLower (r.Form "email")
      else env.ToLower (r.Query "email")) = createEmail env r := rfl

theorem create_checks (env : Env) (fuel : Nat) (r : Request) (w : World)
    (p : Response × World) (h : create env fuel r w = some p)
    (bs : List BaseConfig) (cs : List (String × Except GoError Bool))
    (hbs : created p.2.log = bs ++ created w.log)
    (hcs : checks p.2.log = cs ++ checks w.log) :
    (∀ base ∈ bs, Generated base.Name ∧ cs.head? = some (base.Name, .ok false)) ∧
    (∀ name e, (name, Except.error e) ∈ cs →
      p.1 = .error e StatusInternalServerError ∧ bs = [] ∧ p.2.tokens = w.tokens ∧
        p.2.accounts = w.accounts) := by
  simp only [create, createEmail_eq, NewObjectID, Now, EmailExists, CreateAccount, CreateBase,
    FindTokenByEmail, Send, randStringRunes_eq] at h
  repeat' split at h
  all_goals simp only [Prod.mk.injEq, Option.some.injEq, reduceCtorEq] at h
  all_goals try subst h
  all_goals try simp only [Prod.mk.injEq] at *
  all_goals try casesm* _ ∧ _
  all_goals try (have hS := createStripe_rel ‹_›)
  all_goals try (have hD := createDBName_spec _ _ _ _ _ _ _ ‹_›)
  all_goals try (have hA := createAccountAndUser_spec _ _ _ _ _ _ _ _ ‹_›)
  all_goals try (have hU := createSignUpURL_rel ‹_›)
  all_goals try (obtain ⟨hSt, hSa, -, hSb, hSc, -, -⟩ := hS)
  all_goals try (obtain ⟨n, res, rest, hDl, hDt, hDa, -, hrest, hres⟩ := hD)
  all_goals try (obtain ⟨-, -, hAl⟩ := hA)
  all_goals try (obtain ⟨-, -, -, hUb, hUc, -, -⟩ := hU)
  all_goals try
    (rcases hres with ⟨h1, h2, h3⟩ | ⟨e, h1, h2⟩ <;>
      simp only [Except.ok.injEq, Except.error.injEq, reduceCtorEq] at h1)
  all_goals try subst_vars
  all_goals try simp only [record_log, next_log, record_tokens, next_tokens, record_accounts,
    next_accounts, created_cons, checks_cons, lookups_cons, created_append, checks_append,
    created_checkEvents, checks_checkEvents, List.nil_append, List.append_assoc,
    List.cons_append, List.self_eq_append_left, List.append_cancel_right_eq,
    cons_eq_append_iff, cons_append_eq_append_iff, *] at hbs hcs ⊢
  all_goals try subst_vars
  all_goals refine ⟨fun base hb => ?_, fun name e hm => ?_⟩
  all_goals first
    | (cases hb; done)
    | (simp only [List.mem_singleton] at hb
       subst hb
       exact ⟨h3 (randRunes_generated _ _), rfl⟩)
    | (simp only [List.mem_cons, List.not_mem_nil, Prod.mk.injEq, reduceCtorEq, and_false,
         false_or, Except.error.injEq] at hm <;>
       first
       | exact absurd (hrest _ hm) (by simp only [reduceCtorEq, not_false_eq_true])
       | (rcases hm with ⟨rfl, rfl⟩ | hm
          · exact ⟨rfl, rfl, trivial, trivial⟩
          · exact absurd (hrest _ hm) (by simp only [reduceCtorEq, not_false_eq_true])))


theorem suffix_cons_of {α : Type} {l m : List α} (a : α) (h : l <:+ m) : l <:+ a :: m :=
  h.trans (List.suffix_cons a m)

theorem suffix_append_of {α : Type} {l m : List α} (k : List α) (h : l <:+ m) : l <:+ k ++ m :=
  h.trans (List.suffix_append k m)

/-- The record of outside calls only grows during `accounts.create`. -/
theorem create_log (env : Env) (fuel : Nat) (r : Request) (w : World)
    (p : Response × World) (h : create env fuel r w = some p) : w.log <:+ p.2.log := by
  simp only [create, createEmail_eq, NewObjectID, Now, EmailExists, CreateAccount, CreateBase,
    FindTokenByEmail, Send, randStringRunes_eq] at h
  repeat' split at h
  all_goals simp only [Prod.mk.injEq, Option.some.injEq, reduceCtorEq] at h
  all_goals try subst h
  all_goals try simp only [Prod.mk.injEq] at *
  all_goals try casesm* _ ∧ _
  all_goals try (have hS := createStripe_rel ‹_›)
  all_goals try (have hD := createDBName_spec _ _ _ _ _ _ _ ‹_›)
  all_goals try (have hA := createAccountAndUser_spec _ _ _ _ _ _ _ _ ‹_›)
  all_goals try (have hU := createSignUpURL_rel ‹_›)
  all_goals try (obtain ⟨-, -, -, -, -, -, hSs⟩ := hS)
  all_goals try (obtain ⟨n, res, rest, hDl, -, -, -, -, -⟩ := hD)
  all_goals try (obtain ⟨-, -, hAl⟩ := hA)
  all_goals try (obtain ⟨-, -, -, -, -, -, hUs⟩ := hU)
  all_goals try subst_vars
  all_goals
    repeat
      first
      | exact List.suffix_refl _
      | apply suffix_cons_of
      | apply suffix_append_of
      | rw [record_log]
      | rw [next_log]
      | rw [hAl]
      | rw [hDl]
      | refine List.IsSuffix.trans ?_ hUs
      | refine List.IsSuffix.trans ?_ hSs
      | simp only []

/-- The unique-name loop returns once the oracle stops answering `true`. -/
theorem createDBName_terminates (env : Env) (T : Nat)
    (hT : ∀ t, T ≤ t → ∀ name, env.DatabaseExists t name ≠ .ok true)
    (fuel : Nat) (retry : Int) (name : String) (w : World) (hf : T ≤ w.tick + fuel) :
    (createDBName env (fuel + 1) retry name w).isSome = true := by
  induction fuel generalizing retry name w with
  | zero =>
    unfold createDBName
    simp only [DatabaseExists]
    rcases hr : env.DatabaseExists w.tick name with e | b
    · rfl
    · cases b
      · rfl
      · exact absurd hr (hT _ hf _)
  | succ fuel ih =>
    unfold createDBName
    simp only [DatabaseExists]
    rcases hr : env.DatabaseExists w.tick name with e | b
    · rfl
    · cases b
      · rfl
      · simp only [randStringRunes_eq]
        apply ih
        simp only [World.record]
        omega

theorem create_terminates (env : Env) (T : Nat)
    (hT : ∀ t, T ≤ t → ∀ name, env.DatabaseExists t name ≠ .ok true)
    (fuel : Nat) (hf : T < fuel) (r : Request) (w : World) :
    (create env fuel r w).isSome = true := by
  cases hc : create env fuel r w with
  | some p => rfl
  | none =>
    exfalso
    obtain ⟨f, rfl⟩ : ∃ f, fuel = f + 1 := ⟨fuel - 1, by omega⟩
    have key : ∀ name w', createDBName env (f + 1) 10 name w' ≠ none := by
      intro name w' hn
      have := createDBName_terminates env T hT f 10 name w' (by omega)
      rw [hn] at this
      cases this
    simp only [create, createEmail_eq, NewObjectID, Now, EmailExists, CreateAccount, CreateBase,
      FindTokenByEmail, Send, randStringRunes_eq] at hc
    repeat' split at hc
    all_goals try (simp only [reduceCtorEq] at hc; done)
    all_goals exact key _ _ ‹_›

/-- C8: whenever `accounts.create` goes on to create the base configuration of
the tenant (it calls `internal.CreateBase`), the database name stored in it is
a name as `randStringRunes(12)` generates it, 12 characters of `letterRunes`,
and the most recent `DatabaseExists` check was made on that name and returned
false; and if any `DatabaseExists` check of the run returns an error, the
response is the 500 error of that check, no base configuration is created and
no user record or account is stored. The handler returns whenever the checks
stop answering `true`. -/
theorem create_database_name (env : Env) (r : Request) (w : World) :
    (∀ fuel p, create env fuel r w = some p →
      ∃ evs, p.2.log = evs ++ w.log ∧
        (∀ base ∈ created evs,
          Generated base.Name ∧ (checks evs).head? = some (base.Name, .ok false)) ∧
        (∀ name e, (name, Except.error e) ∈ checks evs →
          p.1 = .error e StatusInternalServerError ∧ created evs = [] ∧
            p.2.tokens = w.tokens ∧ p.2.accounts = w.accounts)) ∧
    (∀ T, (∀ t, T ≤ t → ∀ name, env.DatabaseExists t name ≠ .ok true) →
      ∀ fuel, T < fuel → (create env fuel r w).isSome = true) := by
  refine ⟨?_, fun T hT fuel hf => create_terminates env T hT fuel hf r w⟩
  intro fuel p h
  obtain ⟨evs, hevs⟩ := create_log env fuel r w p h
  refine ⟨evs, hevs.symm, ?_⟩
  exact create_checks env fuel r w p h (created evs) (checks evs)
    (by rw [← hevs, created_append]) (by rw [← hevs, checks_append])

/-- A run of `accounts.create` that gets past the validation looks the email up
in the system database, once. -/
theorem create_lookups (env : Env) (fuel : Nat) (r : Request) (w : World)
    (hv : ¬ (len (createEmail env r) < 4 ∨ Index (createEmail env r) "@" = -1 ∨
      Index (createEmail env r) "." = -1))
    (p : Response × World) (h : create env fuel r w = some p) :
    lookups p.2.log = createEmail env r :: lookups w.log := by
  simp only [create, createEmail_eq, hv, if_false, NewObjectID, Now, EmailExists, CreateAccount,
    CreateBase, FindTokenByEmail, Send, randStringRunes_eq] at h
  repeat' split at h
  all_goals simp only [Prod.mk.injEq, Option.some.injEq, reduceCtorEq] at h
  all_goals try subst h
  all_goals try simp only [Prod.mk.injEq] at *
  all_goals try casesm* _ ∧ _
  all_goals try (have hS := createStripe_rel ‹_›)
  all_goals try (have hD := createDBName_spec _ _ _ _ _ _ _ ‹_›)
  all_goals try (have hA := createAccountAndUser_spec _ _ _ _ _ _ _ _ ‹_›)
  all_goals try (have hU := createSignUpURL_rel ‹_›)
  all_goals try (obtain ⟨-, -, -, -, -, hSl, -⟩ := hS)
  all_goals try (obtain ⟨n, res, rest, hDl, -, -, -, -, -⟩ := hD)
  all_goals try (obtain ⟨-, -, hAl⟩ := hA)
  all_goals try (obtain ⟨-, -, -, -, -, hUl, -⟩ := hU)
  all_goals try subst_vars
  all_goals simp only [record_log, next_log, lookups_cons, lookups_append, lookups_checkEvents,
    List.nil_append, List.cons_append, List.singleton_append, *]

/-! ### Validation of the email in `accounts.create` -/

theorem create_invalid (env : Env) (fuel : Nat) (r : Request) (w : World)
    (h : len (createEmail env r) < 4 ∨ Index (createEmail env r) "@" = -1 ∨
      Index (createEmail env r) "." = -1) :
    create env fuel r w = some (.error "invalid email" StatusBadRequest, w) := by
  unfold create
  simp only [createEmail] at h
  simp only [h, if_true]

theorem create_valid_status (env : Env) (fuel : Nat) (r : Request) (w : World)
    (h : ¬ (len (createEmail env r) < 4 ∨ Index (createEmail env r) "@" = -1 ∨
      Index (createEmail env r) "." = -1)) (resp : Response) (w' : World)
    (hc : create env fuel r w = some (resp, w')) :
    resp.status ≠ StatusBadRequest := by
  unfold create at hc
  simp only [createEmail] at h
  simp only [h, if_false] at hc
  repeat' split at hc
  all_goals first
    | (injection hc with hc
       injection hc with h1 h2
       subst h1
       simp [Response.status, StatusBadRequest, StatusInternalServerError, StatusOK, StatusSeeOther])
    | (cases hc)


/-- C10: `accounts.create` takes the email from the form on POST and from the
query string otherwise and lower-cases it; it responds 400 `invalid email`
if and only if the lower-cased email is shorter than 4 bytes, or contains no
`@`, or contains no `.`, and then nothing is called: the world is unchanged.
Every other email passes the validation: the run goes on to look the email up
in the system database and its response is not a 400; and the handler returns
whenever the `DatabaseExists` checks stop answering `true`. -/
theorem create_email_validation (env : Env) (fuel : Nat) (r : Request) (w : World) :
    createEmail env r =
      env.ToLower (if r.Method = "POST" then r.Form "email" else r.Query "email") ∧
    ((len (createEmail env r) < 4 ∨ '@' ∉ (createEmail env r).data ∨
        '.' ∉ (createEmail env r).data) ↔
      ∃ w', create env fuel r w = some (.error "invalid email" 400, w')) ∧
    ((len (createEmail env r) < 4 ∨ '@' ∉ (createEmail env r).data ∨
        '.' ∉ (createEmail env r).data) →
      create env fuel r w = some (.error "invalid email" 400, w)) ∧
    (¬ (len (createEmail env r) < 4 ∨ '@' ∉ (createEmail env r).data ∨
        '.' ∉ (createEmail env r).data) →
      ∀ p, create env fuel r w = some p →
        p.1.status ≠ 400 ∧ lookups p.2.log = createEmail env r :: lookups w.log) ∧
    (∀ T, (∀ t, T ≤ t → ∀ name, env.DatabaseExists t name ≠ .ok true) →
      T < fuel → (create env fuel r w).isSome = true) := by
  have hiff : (len (createEmail env r) < 4 ∨ '@' ∉ (createEmail env r).data ∨
        '.' ∉ (createEmail env r).data) ↔
      (len (createEmail env r) < 4 ∨ Index (createEmail env r) "@" = -1 ∨
        Index (createEmail env r) "." = -1) := by
    rw [Index_at, Index_dot]
  refine ⟨?_, ⟨?_, ?_⟩, ?_, ?_, fun T hT hf => create_terminates env T hT fuel hf r w⟩
  · unfold createEmail MethodPost
    by_cases hm : r.Method = "POST" <;> simp [hm]
  · intro hinv
    exact ⟨w, create_invalid env fuel r w (hiff.1 hinv)⟩
  · rintro ⟨w', hc⟩
    by_contra hv
    exact create_valid_status env fuel r w (fun h => hv (hiff.2 h)) _ _ hc rfl
  · intro hinv
    exact create_invalid env fuel r w (hiff.1 hinv)
  · intro hv p hc
    have hv' := fun h => hv (hiff.2 h)
    exact ⟨create_valid_status env fuel r w hv' p.1 p.2 hc,
      create_lookups env fuel r w hv' p hc⟩

/-! ### Roles: the admin of an account and the users that register -/

/-- What `accounts.create` stores in `sb_tokens`: at most one user record, with
role 100 and the validated email; exactly one when the run gets past
`createAccountAndUser`. -/
theorem create_stored (env : Env) (fuel : Nat) (r : Request) (w : World)
    (p : Response × World) (h : create env fuel r w = some p) :
    (∃ db, Stored w p.2 db 100 (createEmail env r)) ∧
    ((p.1.status = StatusOK ∨ p.1.status = StatusSeeOther) →
      ∃ db tok, tok.Role = 100 ∧ tok.Email = createEmail env r ∧
        p.2.tokens = fun n => if n = db then w.tokens n ++ [tok] else w.tokens n) := by
  simp only [create, createEmail_eq, NewObjectID, Now, EmailExists, CreateAccount, CreateBase,
    FindTokenByEmail, Send, randStringRunes_eq] at h
  repeat' split at h
  all_goals simp only [Prod.mk.injEq, Option.some.injEq, reduceCtorEq] at h
  all_goals try subst h
  all_goals try simp only [Prod.mk.injEq] at *
  all_goals try casesm* _ ∧ _
  all_goals try (have hS := createStripe_rel ‹_›)
  all_goals try (have hD := createDBName_spec _ _ _ _ _ _ _ ‹_›)
  all_goals try (have hA := createAccountAndUser_spec _ _ _ _ _ _ _ _ ‹_›)
  all_goals try (have hU := createSignUpURL_rel ‹_›)
  all_goals try (obtain ⟨hSt, -, -, -, -, -, -⟩ := hS)
  all_goals try (obtain ⟨n, res, rest, -, hDt, -, -, -, -⟩ := hD)
  all_goals try (obtain ⟨hA1, hA2, -⟩ := hA)
  all_goals try (obtain ⟨hUt, -, -, -, -, -, -⟩ := hU)
  all_goals try subst_vars
  all_goals try simp only [Stored, record_tokens, next_tokens, *] at hA1 hA2
  all_goals simp only [Stored, record_tokens, next_tokens, Response.status, StatusOK,
    StatusSeeOther, StatusBadRequest, StatusInternalServerError, *]
  all_goals first
    | exact ⟨⟨"", Or.inl trivial⟩, fun hc => absurd hc (by decide)⟩
    | exact ⟨⟨_, hA1⟩, fun hc => absurd hc (by decide)⟩
    | exact ⟨⟨_, hA1⟩, fun _ => ⟨_, _, hA2 _ _ rfl⟩⟩


/-- What `membership.register` stores in `sb_tokens` of the tenant database: at
most one user record, with role 0 and the lower-cased email; exactly one when
it succeeds, and then no record had that email before. -/
theorem register_stored (env : Env) (r : Request) (w : World) (conf : BaseConfig) (a : Auth)
    (l : Login) (hex : env.Extract r false = .ok (conf, a))
    (hdec : env.DecodeLogin r.Body = .ok l) (resp : Response) (w' : World)
    (h : register env r w = (resp, w')) :
    Stored w w' conf.Name 0 (env.ToLower l.Email) ∧
    (resp.status = StatusOK →
      (w.tokens conf.Name).countP (fun t => t.Email == env.ToLower l.Email) = 0 ∧
      ∃ tok, tok.Role = 0 ∧ tok.Email = env.ToLower l.Email ∧
        w'.tokens = fun n => if n = conf.Name then w.tokens n ++ [tok] else w.tokens n) := by
  simp only [register, hex, hdec] at h
  repeat' split at h
  all_goals simp only [CountDocuments_iff, SetTyped_none, SetTyped_some, Prod.mk.injEq] at *
  all_goals try casesm* _ ∧ _
  all_goals try (have hA := createAccountAndUser_spec _ _ _ _ _ _ _ _ ‹_›)
  all_goals try (have hn := CountDocuments_ok _ _ _ _ _ ‹_›)
  all_goals try (obtain ⟨hA1, hA2, -⟩ := hA)
  all_goals try subst_vars
  all_goals try simp only [Stored, record_tokens, next_tokens, *] at hA1 hA2
  all_goals simp only [Stored, record_tokens, next_tokens, Response.status, StatusOK,
    StatusSeeOther, StatusBadRequest, StatusInternalServerError, *]
  all_goals first
    | exact ⟨Or.inl trivial, fun hc => absurd hc (by decide)⟩
    | exact ⟨trivial, fun hc => absurd hc (by decide)⟩
    | exact ⟨trivial, fun _ => ⟨Nat.eq_zero_of_not_pos ‹_›, _, hA2 _ _ rfl⟩⟩


theorem setRole_rejects (env : Env) (r : Request) (w : World)
    (h : ∀ conf a, env.Extract r true = .ok (conf, a) → a.Role < 100) :
    setRole env r w = (.error "insufficient priviledges" StatusUnauthorized, w) := by
  unfold setRole
  rcases hex : env.Extract r true with e | ⟨conf, a⟩
  · rfl
  · simp only [h conf a hex, if_true]

theorem setPassword_rejects (env : Env) (r : Request) (w : World)
    (h : ∀ conf a, env.Extract r true = .ok (conf, a) → a.Role < 100) :
    setPassword env r w = (.error "insufficient priviledges" StatusUnauthorized, w) := by
  unfold setPassword
  rcases hex : env.Extract r true with e | ⟨conf, a⟩
  · rfl
  · simp only [h conf a hex, if_true]

theorem setRole_accepts (env : Env) (r : Request) (w : World) (conf : BaseConfig) (a : Auth)
    (data : SetRoleData) (hex : env.Extract r true = .ok (conf, a)) (hr : 100 ≤ a.Role)
    (hdec : env.DecodeSetRole r.Body = .ok data) (hdb : env.dbErr w.tick = none) :
    setRole env r w =
      (.respond StatusOK (.bool true),
        { w with
          tokens := fun n =>
            if n = conf.Name then
              updateFirst (fun t => t.Email == data.Email) (fun t => { t with Role := data.Role })
                (w.tokens n)
            else w.tokens n,
          tick := w.tick + 1 }) := by
  unfold setRole
  simp only [hex, not_lt.mpr hr, if_false, hdec, UpdateOne, hdb]

theorem setPassword_accepts (env : Env) (r : Request) (w : World) (conf : BaseConfig) (a : Auth)
    (data : SetPasswordData) (tok : Token) (hash : String)
    (hex : env.Extract r true = .ok (conf, a)) (hr : 100 ≤ a.Role)
    (hdec : env.DecodeSetPassword r.Body = .ok data)
    (hval : (validateUserPassword env conf.Name data.Email data.OldPassword w).1 = .ok tok)
    (hgen : env.GenerateFromPassword (w.tick + 1) data.NewPassword = .ok hash)
    (hdb : env.dbErr (w.tick + 2) = none) :
    setPassword env r w =
      (.respond StatusOK (.bool true),
        { w with
          tokens := fun n =>
            if n = conf.Name then
              updateFirst (fun t => t.ID == tok.ID) (fun t => { t with Password := hash })
                (w.tokens n)
            else w.tokens n,
          tick := w.tick + 3 }) := by
  have hv : validateUserPassword env conf.Name data.Email data.OldPassword w = (.ok tok, w.next) :=
    (validateUserPassword_iff _ _ _ _ _ _ _).2 ⟨hval, rfl⟩
  unfold setPassword
  simp only [hex, not_lt.mpr hr, if_false, hdec, hv, World.next, hgen, UpdateOne, hdb]

/-- C6: the user that `accounts.create` stores is an admin, its role is 100
(every user record a run stores has role 100, a run that gets past
`createAccountAndUser` has stored exactly one, and the handler returns whenever
the `DatabaseExists` checks stop answering `true`), and a user that `register`
stores has role 0. For every caller, `setRole` and `setPassword` respond 401
`insufficient priviledges` and leave the world unchanged if the credential
extraction fails or the role of the caller is below 100; a caller of role 100
or more passes the check: when the rest of the request goes through, the
response is 200 and the record is updated. So a caller with the role of a
registered user is always rejected and one with the role of the admin of the
account is not. -/
theorem admin_role (env : Env) (r : Request) (w : World) :
    (∀ fuel p, create env fuel r w = some p →
      (∃ db, Stored w p.2 db 100 (createEmail env r)) ∧
      ((p.1.status = 200 ∨ p.1.status = 303) →
        ∃ db tok, tok.Role = 100 ∧ tok.Email = createEmail env r ∧
          p.2.tokens = fun n => if n = db then w.tokens n ++ [tok] else w.tokens n)) ∧
    (∀ T, (∀ t, T ≤ t → ∀ name, env.DatabaseExists t name ≠ .ok true) →
      ∀ fuel, T < fuel → (create env fuel r w).isSome = true) ∧
    (∀ conf a l, env.Extract r false = .ok (conf, a) → env.DecodeLogin r.Body = .ok l →
      Stored w (register env r w).2 conf.Name 0 (env.ToLower l.Email) ∧
      ((register env r w).1.status = 200 →
        ∃ tok, tok.Role = 0 ∧ tok.Email = env.ToLower l.Email ∧
          (register env r w).2.tokens =
            fun n => if n = conf.Name then w.tokens n ++ [tok] else w.tokens n)) ∧
    ((∀ conf a, env.Extract r true = .ok (conf, a) → a.Role < 100) →
      setRole env r w = (.error "insufficient priviledges" 401, w) ∧
      setPassword env r w = (.error "insufficient priviledges" 401, w)) ∧
    (∀ conf a, env.Extract r true = .ok (conf, a) → 100 ≤ a.Role →
      (∀ data, env.DecodeSetRole r.Body = .ok data → env.dbErr w.tick = none →
        (setRole env r w).1 = .respond 200 (.bool true) ∧
        (setRole env r w).2.tokens conf.Name =
          updateFirst (fun t => t.Email == data.Email) (fun t => { t with Role := data.Role })
            (w.tokens conf.Name)) ∧
      (∀ data tok hash, env.DecodeSetPassword r.Body = .ok data →
        (validateUserPassword env conf.Name data.Email data.OldPassword w).1 = .ok tok →
        env.GenerateFromPassword (w.tick + 1) data.NewPassword = .ok hash →
        env.dbErr (w.tick + 2) = none →
        (setPassword env r w).1 = .respond 200 (.bool true) ∧
        (setPassword env r w).2.tokens conf.Name =
          updateFirst (fun t => t.ID == tok.ID) (fun t => { t with Password := hash })
            (w.tokens conf.Name))) := by
  refine ⟨fun fuel p h => create_stored env fuel r w p h,
    fun T hT fuel hf => create_terminates env T hT fuel hf r w, ?_, ?_, ?_⟩
  · intro conf a l hex hdec
    have := register_stored env r w conf a l hex hdec (register env r w).1 (register env r w).2 rfl
    exact ⟨this.1, fun hs => (this.2 hs).2⟩
  · intro h
    exact ⟨setRole_rejects env r w h, setPassword_rejects env r w h⟩
  · intro conf a hex hr
    refine ⟨fun data hdec hdb => ?_, fun data tok hash hdec hval hgen hdb => ?_⟩
    · rw [setRole_accepts env r w conf a data hex hr hdec hdb]
      exact ⟨rfl, by simp⟩
    · rw [setPassword_accepts env r w conf a data tok hash hex hr hdec hval hgen hdb]
      exact ⟨rfl, by simp⟩

/-! ### Registering an email twice -/

theorem register_duplicate (env : Env) (r : Request) (w : World) (conf : BaseConfig) (a : Auth)
    (l : Login) (hex : env.Extract r false = .ok (conf, a))
    (hdec : env.DecodeLogin r.Body = .ok l)
    (hdup : ∃ t ∈ w.tokens conf.Name, t.Email = env.ToLower l.Email) :
    (env.dbErr w.tick = none →
      register env r w = (.error "invalid email" StatusBadRequest, w.next)) ∧
    (∀ e, env.dbErr w.tick = some e →
      register env r w = (.error e StatusInternalServerError, w.next)) := by
  have hpos : (w.tokens conf.Name).countP (fun t => t.Email == env.ToLower l.Email) > 0 := by
    obtain ⟨t, ht, he⟩ := hdup
    exact List.countP_pos_iff.2 ⟨t, ht, by simpa using he⟩
  constructor
  · intro hdb
    simp only [register, hex, hdec, CountDocuments, hdb, hpos, if_true]
  · intro e hdb
    simp only [register, hex, hdec, CountDocuments, hdb]

/-- C7 (amended): for every register request with a valid key and a body that
decodes, whose email, after lower-casing, already matches at least one record
of `sb_tokens`: `register` responds 400 `invalid email` when the count query is
answered, and 500 with the error of the driver when the count query fails; in
both cases the request does not succeed, no account and no user record is
inserted and nothing is written to the cache. So of two registrations in one
tenant, run one after the other, whose emails are equal after lower-casing,
the later cannot succeed while the record of the earlier is in `sb_tokens`. -/
theorem register_duplicate_email (env : Env) (r : Request) (w : World) (conf : BaseConfig)
    (a : Auth) (l : Login) (hex : env.Extract r false = .ok (conf, a))
    (hdec : env.DecodeLogin r.Body = .ok l) :
    ((∃ t ∈ w.tokens conf.Name, t.Email = env.ToLower l.Email) →
      (env.dbErr w.tick = none → (register env r w).1 = .error "invalid email" 400) ∧
      (∀ e, env.dbErr w.tick = some e → (register env r w).1 = .error e 500) ∧
      (register env r w).1.status ≠ 200 ∧
      (register env r w).2.tokens = w.tokens ∧
      (register env r w).2.accounts = w.accounts ∧
      (register env r w).2.cache = w.cache) ∧
    (∀ r0 w0 conf0 a0 l0,
      env.Extract r0 false = .ok (conf0, a0) → env.DecodeLogin r0.Body = .ok l0 →
      conf0.Name = conf.Name → env.ToLower l0.Email = env.ToLower l.Email →
      (register env r0 w0).1.status = 200 →
      (∀ t ∈ (register env r0 w0).2.tokens conf.Name, t ∈ w.tokens conf.Name) →
      (register env r w).1.status ≠ 200 ∧ (register env r w).2.tokens = w.tokens) := by
  have h400 : ∀ e : String, (Response.error e StatusBadRequest).status ≠ 200 := by
    intro e
    simp [Response.status, StatusBadRequest]
  have h500 : ∀ e : String, (Response.error e StatusInternalServerError).status ≠ 200 := by
    intro e
    simp [Response.status, StatusInternalServerError]
  have part1 : (∃ t ∈ w.tokens conf.Name, t.Email = env.ToLower l.Email) →
      (env.dbErr w.tick = none → (register env r w).1 = .error "invalid email" 400) ∧
      (∀ e, env.dbErr w.tick = some e → (register env r w).1 = .error e 500) ∧
      (register env r w).1.status ≠ 200 ∧
      (register env r w).2.tokens = w.tokens ∧
      (register env r w).2.accounts = w.accounts ∧
      (register env r w).2.cache = w.cache := by
    intro hdup
    obtain ⟨h1, h2⟩ := register_duplicate env r w conf a l hex hdec hdup
    rcases hdb : env.dbErr w.tick with _ | e
    · rw [h1 hdb]
      refine ⟨fun _ => rfl, ?_, h400 _, rfl, rfl, rfl⟩
      intro e he
      cases he
    · rw [h2 e hdb]
      refine ⟨?_, ?_, h500 _, rfl, rfl, rfl⟩
      · intro he
        cases he
      · intro e' he
        cases he
        rfl
  refine ⟨part1, ?_⟩
  intro r0 w0 conf0 a0 l0 hex0 hdec0 hname hlow hs hkeep
  obtain ⟨-, hsucc⟩ := register_stored env r0 w0 conf0 a0 l0 hex0 hdec0
    (register env r0 w0).1 (register env r0 w0).2 rfl
  obtain ⟨-, tok, -, hemail, htok⟩ := hsucc hs
  have hmem : tok ∈ (register env r0 w0).2.tokens conf.Name := by
    rw [htok]
    simp [hname]
  have := part1 ⟨tok, hkeep tok hmem, by rw [hemail, hlow]⟩
  exact ⟨this.2.2.1, this.2.2.2.1⟩

/-! ### The hub -/

namespace Hub

theorem base_ne (t : String) : t ≠ "base:" ++ t := by
  intro h
  have h2 := congrArg String.length h
  rw [String.length_append] at h2
  have : ("base:" : String).length = 5 := by decide
  omega

theorem find_sid {h : State} {sid : String} {c : Connection} (hc : h.find sid = some c) :
    c.sid = sid := by
  unfold State.find at hc
  have := List.find?_some hc
  simpa using this

theorem find_map (l : List Connection) (f : Connection → Connection) (sid : String)
    (hf : ∀ x, (f x).sid = x.sid) :
    (l.map f).find? (fun c => c.sid == sid) = (l.find? (fun c => c.sid == sid)).map f := by
  induction l with
  | nil => rfl
  | cons x xs ih =>
    simp only [List.map_cons, List.find?_cons, hf]
    split
    · rfl
    · exact ih

/-- C1: for every string `s` and every live connection, authenticated or
not, an inbound `echo` envelope with data `s` leaves the whole state of the
hub (so also the Identity of the connection) unchanged and sends that
connection exactly one envelope, of type `echo` with data `"echo: " ++ s`. -/
theorem echo_reply (env : Collab) (now : Time) (h : State) (c : Connection) (s : String)
    (msg : Command) (hc : h.find c.sid = some c) (ht : msg.Type_ = MsgTypeEcho)
    (hd : msg.Data = s) :
    (dispatch env now h c.sid msg).1 = h ∧
    (dispatch env now h c.sid msg).2 = [reply c.sid MsgTypeEcho ("echo: " ++ s)] ∧
    received (dispatch env now h c.sid msg).2 c.sid =
      [{ SID := c.sid, Type_ := "echo", Data := "echo: " ++ s, Channel := "", Token := "" }] ∧
    ((dispatch env now h c.sid msg).1.find c.sid).map Connection.identity = some c.identity := by
  have hr : dispatch env now h c.sid msg = (h, [reply c.sid MsgTypeEcho ("echo: " ++ s)]) := by
    unfold dispatch
    simp only [hc, ht, hd, if_true]
  rw [hr]
  refine ⟨rfl, rfl, ?_, ?_⟩
  · simp [received, reply, MsgTypeEcho]
  · simp [hc]

theorem received_broadcast_self (h : State) (channel : String) (msg : Command) (sid : String) :
    received (broadcast h channel msg sid) sid = [] := by
  unfold received broadcast
  simp only [List.map_eq_nil_iff, List.filter_eq_nil_iff, List.mem_map, List.mem_filter]
  rintro d ⟨x, ⟨_, hx⟩, rfl⟩
  simp only [Bool.and_eq_true, bne_iff_ne, ne_eq] at hx
  simpa using hx.1

theorem received_broadcast_mem (h : State) (channel : String) (msg m : Command)
    (sid other : String) (hm : m ∈ received (broadcast h channel msg sid) other) : m = msg := by
  unfold received broadcast at hm
  simp only [List.mem_map, List.mem_filter] at hm
  obtain ⟨d, ⟨⟨x, _, rfl⟩, _⟩, rfl⟩ := hm
  rfl

theorem received_broadcast_other (h : State) (channel : String) (msg : Command)
    (sid other : String) (c : Connection) (hne : other ≠ sid) (hlive : h.find other = some c)
    (hsub : other ∈ h.directory channel) :
    msg ∈ received (broadcast h channel msg sid) other := by
  unfold received broadcast
  simp only [List.mem_map, List.mem_filter]
  refine ⟨{ dest := other, msg := msg }, ⟨⟨other, ⟨hsub, ?_⟩, rfl⟩, ?_⟩, rfl⟩
  · simp [hne, hlive]
  · simp

/-- C2: for two distinct live authenticated connections `a` and `b` that have
both joined channel `ch` and every payload `p`: when `a` sends `channel-in`
with data `p`, channel `ch` and its current session token, `a` receives exactly
one envelope, of type `ok`; `b` receives an envelope of type `channel-out` with
data `p`, and nothing else; so `a` receives no `channel-out`. The state of the
hub is unchanged. -/
theorem channel_in_relay (env : Collab) (now : Time) (h : State) (a b : Connection)
    (ia ib : Identity) (ch p : String) (msg : Command)
    (hab : a.sid ≠ b.sid)
    (ha : h.find a.sid = some a) (hb : h.find b.sid = some b)
    (haa : a.identity = some ia) (_hba : b.identity = some ib)
    (_haj : a.sid ∈ h.directory ch) (hbj : b.sid ∈ h.directory ch)
    (ht : msg.Type_ = MsgTypeChanIn) (hd : msg.Data = p) (hch : msg.Channel = ch)
    (htok : msg.Token = ia.token) :
    (dispatch env now h a.sid msg).1 = h ∧
    received (dispatch env now h a.sid msg).2 a.sid =
      [{ SID := a.sid, Type_ := "ok", Data := "", Channel := "", Token := "" }] ∧
    (∀ m ∈ received (dispatch env now h a.sid msg).2 a.sid, m.Type_ ≠ "channel-out") ∧
    (∃ m ∈ received (dispatch env now h a.sid msg).2 b.sid,
      m.Type_ = "channel-out" ∧ m.Data = p) ∧
    (∀ m ∈ received (dispatch env now h a.sid msg).2 b.sid,
      m.Type_ = "channel-out" ∧ m.Data = p ∧ m.Channel = ch) := by
  have hr : dispatch env now h a.sid msg =
      (h, reply a.sid MsgTypeOk "" ::
        broadcast h ch
          { SID := a.sid, Type_ := MsgTypeChanOut, Data := p, Channel := ch, Token := "" }
          a.sid) := by
    unfold dispatch
    have h1 : ¬ MsgTypeChanIn = MsgTypeEcho := by decide
    have h2 : ¬ MsgTypeChanIn = MsgTypeAuth := by decide
    have h3 : ¬ MsgTypeChanIn = MsgTypeJoin := by decide
    simp only [ha, ht, hd, hch, htok, haa, h1, h2, h3, if_true, if_false]
  have hself : received (reply a.sid MsgTypeOk "" ::
        broadcast h ch
          { SID := a.sid, Type_ := MsgTypeChanOut, Data := p, Channel := ch, Token := "" }
          a.sid) a.sid =
      [{ SID := a.sid, Type_ := "ok", Data := "", Channel := "", Token := "" }] := by
    have := received_broadcast_self h ch
      { SID := a.sid, Type_ := MsgTypeChanOut, Data := p, Channel := ch, Token := "" } a.sid
    unfold received at this ⊢
    simp only [List.filter_cons, reply, beq_self_eq_true, if_true, List.map_cons, this]
    rfl
  have hother : received (reply a.sid MsgTypeOk "" ::
        broadcast h ch
          { SID := a.sid, Type_ := MsgTypeChanOut, Data := p, Channel := ch, Token := "" }
          a.sid) b.sid =
      received (broadcast h ch
          { SID := a.sid, Type_ := MsgTypeChanOut, Data := p, Channel := ch, Token := "" }
          a.sid) b.sid := by
    unfold received
    have : (a.sid == b.sid) = false := by simpa using hab
    simp only [List.filter_cons, reply, this]
    rfl
  rw [hr]
  refine ⟨rfl, hself, ?_, ?_, ?_⟩
  · intro m hm
    rw [hself] at hm
    simp only [List.mem_singleton] at hm
    subst hm
    show ¬ "ok" = "channel-out"
    decide
  · refine ⟨{ SID := a.sid, Type_ := MsgTypeChanOut, Data := p, Channel := ch, Token := "" },
      ?_, rfl, rfl⟩
    show _ ∈ received (reply a.sid MsgTypeOk "" :: _) b.sid
    rw [hother]
    exact received_broadcast_other h ch _ a.sid b.sid b (Ne.symm hab) hb hbj
  · intro m hm
    replace hm : m ∈ received (reply a.sid MsgTypeOk "" :: broadcast h ch
          { SID := a.sid, Type_ := MsgTypeChanOut, Data := p, Channel := ch, Token := "" }
          a.sid) b.sid := hm
    rw [hother] at hm
    have := received_broadcast_mem h ch _ m a.sid b.sid hm
    subst this
    exact ⟨rfl, rfl, rfl⟩

/-- The role test of the permission filter, as a proposition. -/
theorem permitted_iff (env : Collab) (h : State) (now : Time) (c : Connection) (n : String)
    (i : Identity) (hi : cachedIdentity h now c = some i) :
    permitted env h now c n = true ↔
      ∀ code, requiredCode n = some code → env.threshold code ≤ i.role := by
  unfold permitted
  cases hr : requiredCode n with
  | none => simp
  | some code => simp [hi]

theorem received_publish (env : Collab) (now : Time) (h : State) (ev : ChangeEvent)
    (c : Connection) (hc : h.find c.sid = some c) (m : Command) :
    m ∈ received (publish env now h ev) c.sid ↔
      (c.sid ∈ h.directory (channelOf ev.collection) ∧
        permitted env h now c ev.collection = true ∧
        m = { SID := "", Type_ := eventType ev.operation, Data := ev.document,
              Channel := channelOf ev.collection, Token := "" }) := by
  unfold received publish
  simp only [List.mem_map, List.mem_filter, List.mem_filterMap]
  constructor
  · rintro ⟨d, ⟨⟨sid, hsid, hd⟩, hdest⟩, rfl⟩
    cases hf : h.find sid with
    | none => simp [hf] at hd
    | some c' =>
      simp only [hf] at hd
      split at hd
      · rename_i hp
        simp only [Option.some.injEq] at hd
        subst hd
        simp only [beq_iff_eq] at hdest
        subst hdest
        rw [hc] at hf
        simp only [Option.some.injEq] at hf
        subst hf
        exact ⟨hsid, hp, rfl⟩
      · simp at hd
  · rintro ⟨hsub, hp, rfl⟩
    refine ⟨{ dest := c.sid, msg := _ }, ⟨⟨c.sid, hsub, ?_⟩, ?_⟩, rfl⟩
    · simp [hc, hp]
    · simp

/-- C3: for every committed create on a collection `n`, a live connection
that joined the derived channel `"db-" ++ n` and whose cached Identity is `i`
receives a `db-created` envelope if and only if the role of `i` meets or
exceeds the threshold of the code of a trailing `_<code>_` suffix of `n`
(every such subscriber qualifies when `n` carries no suffix); a subscriber
that does not qualify receives nothing at all for the write, and whatever a
subscriber receives for it is the `db-created` envelope with the document. -/
theorem publish_created_filter (env : Collab) (now : Time) (h : State) (c : Connection)
    (i : Identity) (db n doc : String)
    (hc : h.find c.sid = some c)
    (hj : c.sid ∈ h.directory ("db-" ++ n))
    (hi : cachedIdentity h now c = some i) :
    ((∃ m ∈ received (publish env now h
          { database := db, collection := n, operation := .created, document := doc }) c.sid,
        m.Type_ = "db-created") ↔
      ∀ code, requiredCode n = some code → env.threshold code ≤ i.role) ∧
    ((¬ ∀ code, requiredCode n = some code → env.threshold code ≤ i.role) →
      received (publish env now h
          { database := db, collection := n, operation := .created, document := doc }) c.sid
        = []) ∧
    (∀ m ∈ received (publish env now h
          { database := db, collection := n, operation := .created, document := doc }) c.sid,
        m.Type_ = "db-created" ∧ m.Data = doc ∧ m.Channel = "db-" ++ n) := by
  have key := received_publish env now h
    { database := db, collection := n, operation := .created, document := doc } c hc
  have hp := permitted_iff env h now c n i hi
  refine ⟨⟨?_, ?_⟩, ?_, ?_⟩
  · rintro ⟨m, hm, _⟩
    exact hp.1 ((key m).1 hm).2.1
  · intro hq
    exact ⟨_, (key _).2 ⟨hj, hp.2 hq, rfl⟩, rfl⟩
  · intro hq
    rw [List.eq_nil_iff_forall_not_mem]
    intro m hm
    exact hq (hp.1 ((key m).1 hm).2.1)
  · intro m hm
    have := ((key m).1 hm).2.2
    subst this
    exact ⟨rfl, rfl, rfl⟩

theorem received_reply (sid type data : String) :
    received [reply sid type data] sid =
      [{ SID := sid, Type_ := type, Data := data, Channel := "", Token := "" }] := by
  simp [received, reply]

theorem join_reply (now : Time) (h : State) (c : Connection) (channel token : String)
    (expires : Time) (hj : Joinable h c.sid token expires) (hnow : now < expires) :
    (join now h c channel token).2 = [reply c.sid MsgTypeJoined channel] ∧
    Joinable (join now h c channel token).1 c.sid token expires := by
  obtain ⟨⟨c', i', hf, hi'⟩, i, hcache⟩ := hj
  have hid : h.identityOf token now = some i := by
    simp [State.identityOf, State.resolve, hcache, hnow]
  unfold join
  simp only [hid]
  split
  · exact ⟨rfl, ⟨c', i', hf, hi'⟩, i, hcache⟩
  · refine ⟨rfl, ⟨{ c' with channels := c'.channels ++ [channel] }, i', ?_, hi'⟩, i, hcache⟩
    have hs := find_sid hf
    unfold State.find at hf ⊢
    simp only
    rw [find_map _ _ _ (by intro x; split <;> rfl), hf]
    simp [hs]

theorem joins_replies (env : Collab) (h : State) (sid token : String) (expires : Time)
    (reqs : List (Time × String)) (hj : Joinable h sid token expires)
    (hreq : ∀ q ∈ reqs, q.1 < expires) :
    joins env h sid token reqs =
      reqs.map (fun q =>
        [{ SID := sid, Type_ := "joined", Data := q.2, Channel := "", Token := "" }]) := by
  induction reqs generalizing h with
  | nil => rfl
  | cons q rest ih =>
    obtain ⟨now, channel⟩ := q
    obtain ⟨c, i, hf, hi⟩ := id hj.1
    have hs := find_sid hf
    subst hs
    have hnow : now < expires := hreq (now, channel) (List.mem_cons_self _ _)
    have hd : dispatch env now h c.sid
        { SID := c.sid, Type_ := MsgTypeJoin, Data := channel, Channel := "", Token := token } =
        join now h c channel token := by
      unfold dispatch
      have h1 : ¬ MsgTypeJoin = MsgTypeEcho := by decide
      have h2 : ¬ MsgTypeJoin = MsgTypeAuth := by decide
      simp only [hf, hi, h1, h2, if_true, if_false]
    obtain ⟨hr, hj'⟩ := join_reply now h c channel token expires hj hnow
    unfold joins
    simp only [hd, List.map_cons]
    rw [ih (join now h c channel token).1 hj' (fun q hq => hreq q (List.mem_cons_of_mem _ hq)), hr,
      received_reply]
    rfl

/-- C4: for every live connection and every credential the Identity Service
accepts, an inbound `auth` envelope carrying the credential as data is
answered by exactly one envelope, of type `token`, whose data is the session
token minted for the connection; and `join` envelopes sent afterwards on the
same connection with that value in the token field, any number of them, each
before the expiry of 12 hours, are each answered by exactly one envelope of
type `joined`. -/
theorem auth_then_join (env : Collab) (now : Time) (h : State) (c : Connection)
    (cred : String) (i : Identity) (msg : Command) (reqs : List (Time × String))
    (hc : h.find c.sid = some c) (hv : env.validate cred = some i)
    (ht : msg.Type_ = MsgTypeAuth) (hd : msg.Data = cred)
    (hreq : ∀ q ∈ reqs, q.1 < now + 12 * Hour) :
    received (dispatch env now h c.sid msg).2 c.sid =
      [{ SID := c.sid, Type_ := "token", Data := env.mint h.minted, Channel := "", Token := "" }] ∧
    ((dispatch env now h c.sid msg).1.find c.sid).map Connection.identity =
      some (some { i with token := env.mint h.minted }) ∧
    (dispatch env now h c.sid msg).1.identityOf (env.mint h.minted) now =
      some { i with token := env.mint h.minted } ∧
    joins env (dispatch env now h c.sid msg).1 c.sid (env.mint h.minted) reqs =
      reqs.map (fun q =>
        [{ SID := c.sid, Type_ := "joined", Data := q.2, Channel := "", Token := "" }]) := by
  have hr : dispatch env now h c.sid msg = authenticate env now h c cred := by
    unfold dispatch
    have h1 : ¬ MsgTypeAuth = MsgTypeEcho := by decide
    simp only [hc, ht, hd, h1, if_true, if_false]
  have hfind : (authenticate env now h c cred).1.find c.sid =
      some { c with identity := some { i with token := env.mint h.minted } } := by
    unfold authenticate State.find
    simp only [hv, State.store]
    unfold State.find at hc
    rw [find_map _ _ _ (by intro x; split <;> rfl), hc]
    simp
  have hcache : (authenticate env now h c cred).1.cache (env.mint h.minted) =
      some (.identity { i with token := env.mint h.minted }, now + 12 * Hour) := by
    unfold authenticate
    simp only [hv, State.store, base_ne, if_false, if_true, expiry]
  rw [hr]
  refine ⟨?_, ?_, ?_, ?_⟩
  · unfold authenticate
    simp only [hv]
    exact received_reply _ _ _
  · rw [hfind]
    rfl
  · have hpos : 0 < 12 * Hour := by decide
    have : now < now + 12 * Hour := Nat.lt_add_of_pos_right hpos
    simp [State.identityOf, State.resolve, hcache, this]
  · exact joins_replies env _ c.sid _ (now + 12 * Hour) reqs
      ⟨⟨_, _, hfind, rfl⟩, _, hcache⟩ hreq

end Hub

/-! ### The scenarios of `hub_test.go` -/

namespace Hub

/-- Witness of C1 (`TestWebSocketConnection`): a client that has only
connected sends `echo` with data `test` and receives `echo: test`. -/
theorem echo_reply_witness :
    Scenario.connected.find "s" = some { sid := "s", identity := none, channels := [] } ∧
    received
      (dispatch Scenario.collab 0 Scenario.connected "s"
        (Scenario.envelope "s" "echo" "test" "" "")).2 "s" =
      [{ SID := "s", Type_ := "echo", Data := "echo: test", Channel := "", Token := "" }] ∧
    (dispatch Scenario.collab 0 Scenario.connected "s"
        (Scenario.envelope "s" "echo" "test" "" "")).1 = Scenario.connected :=
  have h := echo_reply Scenario.collab 0 Scenario.connected
    { sid := "s", identity := none, channels := [] } "test"
    (Scenario.envelope "s" "echo" "test" "" "") (by decide) rfl rfl
  ⟨by decide, h.2.2.1, h.1⟩

/-- Witness of C2 (`TestWebSocketChannel`): admin and user have joined
`unittest`; the admin sends `hello sck1 and sck2` and receives one `ok`, the
user receives it as `channel-out`. -/
theorem channel_in_relay_witness :
    (Scenario.joined "unittest").find "s" = some (Scenario.admin "unittest") ∧
    (Scenario.joined "unittest").find "ss" = some (Scenario.user "unittest") ∧
    (Scenario.joined "unittest").directory "unittest" = ["s", "ss"] ∧
    received
      (dispatch Scenario.collab 4 (Scenario.joined "unittest") "s"
        (Scenario.envelope "s" "channel-in" "hello sck1 and sck2" "unittest" "t")).2 "s" =
      [{ SID := "s", Type_ := "ok", Data := "", Channel := "", Token := "" }] ∧
    ∃ m ∈ received
      (dispatch Scenario.collab 4 (Scenario.joined "unittest") "s"
        (Scenario.envelope "s" "channel-in" "hello sck1 and sck2" "unittest" "t")).2 "ss",
      m.Type_ = "channel-out" ∧ m.Data = "hello sck1 and sck2" :=
  have h := channel_in_relay Scenario.collab 4 (Scenario.joined "unittest")
    (Scenario.admin "unittest") (Scenario.user "unittest")
    { accountID := "acct", userID := "admin", role := 100, email := "root@example.com",
      token := "t" }
    { accountID := "acct", userID := "user", role := 0, email := "ada@example.com",
      token := "tt" }
    "unittest" "hello sck1 and sck2"
    (Scenario.envelope "s" "channel-in" "hello sck1 and sck2" "unittest" "t")
    (by decide) (by decide) (by decide) rfl rfl (by decide) (by decide) rfl rfl rfl rfl
  ⟨by decide, by decide, by decide, h.2.1, h.2.2.2.1⟩

/-- Witness of C3 (`TestWebSocketDBPermission`): admin (role 100) and user
(role 0) have joined `db-permtest_700_`; a create on `permtest_700_`, whose
code 700 stands for the threshold 100, reaches the admin and not the user. -/
theorem publish_created_filter_witness :
    (Scenario.joined "db-permtest_700_").find "s" = some (Scenario.admin "db-permtest_700_") ∧
    "s" ∈ (Scenario.joined "db-permtest_700_").directory ("db-" ++ "permtest_700_") ∧
    cachedIdentity (Scenario.joined "db-permtest_700_") 5 (Scenario.admin "db-permtest_700_") =
      some { accountID := "acct", userID := "admin", role := 100, email := "root@example.com",
             token := "t" } ∧
    requiredCode "permtest_700_" = some 700 ∧
    (∃ m ∈ received
      (publish Scenario.collab 5 (Scenario.joined "db-permtest_700_")
        { database := "tenantdb", collection := "permtest_700_", operation := .created,
          document := "task" }) "s",
      m.Type_ = "db-created") ∧
    received
      (publish Scenario.collab 5 (Scenario.joined "db-permtest_700_")
        { database := "tenantdb", collection := "permtest_700_", operation := .created,
          document := "task" }) "ss" = [] :=
  have h := publish_created_filter Scenario.collab 5 (Scenario.joined "db-permtest_700_")
    (Scenario.admin "db-permtest_700_")
    { accountID := "acct", userID := "admin", role := 100, email := "root@example.com",
      token := "t" }
    "tenantdb" "permtest_700_" "task" (by decide) (by decide) (by decide)
  have h' := publish_created_filter Scenario.collab 5 (Scenario.joined "db-permtest_700_")
    (Scenario.user "db-permtest_700_")
    { accountID := "acct", userID := "user", role := 0, email := "ada@example.com",
      token := "tt" }
    "tenantdb" "permtest_700_" "task" (by decide) (by decide) (by decide)
  have hcode : requiredCode "permtest_700_" = some 700 := by decide
  ⟨by decide, by decide, by decide, hcode,
    h.1.2 (by
      intro code hc
      rw [hcode] at hc
      cases hc
      decide),
    h'.2.1 (by
      intro hall
      exact absurd (hall 700 hcode) (by decide))⟩

/-- Witness of C4 (`TestWebSocketAuth`, `TestWebSocketChannel`): a connected
client authenticates with the admin credential at time 0 and receives the
token `t`; three joins with that token, the last one nanosecond before the
expiry, are each answered `joined`. -/
theorem auth_then_join_witness :
    Scenario.connected.find "s" = some { sid := "s", identity := none, channels := [] } ∧
    received
      (dispatch Scenario.collab 0 Scenario.connected "s"
        (Scenario.envelope "s" "auth" "admin-key" "" "")).2 "s" =
      [{ SID := "s", Type_ := "token", Data := "t", Channel := "", Token := "" }] ∧
    joins Scenario.collab
      (dispatch Scenario.collab 0 Scenario.connected "s"
        (Scenario.envelope "s" "auth" "admin-key" "" "")).1 "s" "t"
      [(1, "unittest"), (2, "unittest"), (12 * Hour - 1, "other")] =
      [[{ SID := "s", Type_ := "joined", Data := "unittest", Channel := "", Token := "" }],
        [{ SID := "s", Type_ := "joined", Data := "unittest", Channel := "", Token := "" }],
        [{ SID := "s", Type_ := "joined", Data := "other", Channel := "", Token := "" }]] :=
  have h := auth_then_join Scenario.collab 0 Scenario.connected
    { sid := "s", identity := none, channels := [] } "admin-key"
    { accountID := "acct", userID := "admin", role := 100, email := "root@example.com",
      token := "" }
    (Scenario.envelope "s" "auth" "admin-key" "" "")
    [(1, "unittest"), (2, "unittest"), (12 * Hour - 1, "other")]
    (by decide) (by decide) rfl rfl (by decide)
  ⟨by decide, h.1, h.2.2.2⟩

end Hub

/-! ### Concrete runs of the handlers -/

namespace Scenario

/-- Witness of C5: after `Ada@Example.com` has registered, a login as
`ADA@example.com` succeeds, and the cache maps the token of her user record to
her identity and `base:` plus the token to the tenant configuration; when the
second cache write fails, the response is the 500 of that failure. -/
theorem login_cache_witness :
    (login env (request "POST" "user" "ADA@example.com") registered).1.status = StatusOK ∧
    (∃ tok : Token,
      (registered.tokens "tenantdb").find? (fun t => t.Email == "ada@example.com") = some tok ∧
      (login env (request "POST" "user" "ADA@example.com") registered).2.cache
          (tok.ID.Hex ++ "|" ++ tok.Token) =
        some (.auth
          { AccountID := tok.AccountID
            UserID := tok.ID
            Email := tok.Email
            Role := tok.Role
            Token := tok.Token }) ∧
      (login env (request "POST" "user" "ADA@example.com") registered).2.cache
          ("base:" ++ (tok.ID.Hex ++ "|" ++ tok.Token)) = some (.conf conf)) ∧
    (login envCacheDown (request "POST" "user" "ADA@example.com") registered).1 =
      .error "cache down" 500 := by
  have hdown := congrArg Prod.fst
    (((login_cache envCacheDown (request "POST" "user" "ADA@example.com") registered).2
      conf userAuth { Email := "ADA@example.com", Password := "pw" } ada "jwt:fffff|ffffff"
      registered.next registered.next.next.next rfl rfl rfl rfl).2 "cache down"
      { registered.next.next.next with
        cache := fun k =>
          if k = sessionKey ada then
            some (.auth
              { AccountID := ada.AccountID
                UserID := ada.ID
                Email := ada.Email
                Role := ada.Role
                Token := ada.Token })
          else registered.next.next.next.cache k,
        tick := registered.next.next.next.tick + 1 }
      _ rfl rfl)
  obtain ⟨c, a, l, tok, jwt, hex, hdec, hfind, -, -, -, hc1, hc2⟩ :=
    (login_cache env (request "POST" "user" "ADA@example.com") registered).1 (by decide)
  have hex' : env.Extract (request "POST" "user" "ADA@example.com") false =
      .ok (conf, userAuth) := rfl
  have hdec' : env.DecodeLogin (request "POST" "user" "ADA@example.com").Body =
      .ok { Email := "ADA@example.com", Password := "pw" } := rfl
  rw [hex'] at hex
  rw [hdec'] at hdec
  cases hex
  cases hdec
  exact ⟨by decide, ⟨tok, hfind, hc1, hc2⟩, hdown⟩

/-- Witness of C6: a caller with the role of a registered user is rejected by
`setRole` and `setPassword`, a caller of role 100 is not, and the user that
`accounts.create` stored has role 100. -/
theorem admin_role_witness :
    setRole env (request "POST" "user" "ada@example.com") registered =
      (.error "insufficient priviledges" 401, registered) ∧
    setPassword env (request "POST" "user" "ada@example.com") registered =
      (.error "insufficient priviledges" 401, registered) ∧
    (setRole env (request "POST" "admin" "ada@example.com") registered).1 =
      .respond 200 (.bool true) ∧
    (setRole env (request "POST" "admin" "ada@example.com") registered).2.tokens "tenantdb" =
      [{ ada with Role := 50 }] ∧
    (setPassword env (request "POST" "admin" "ada@example.com") registered).1 =
      .respond 200 (.bool true) ∧
    (∃ tok, tok.Role = 0 ∧ registered.tokens = fun n =>
      if n = "tenantdb" then world.tokens n ++ [tok] else world.tokens n) ∧
    create env 2 (request "POST" "" "Root@Example.com") world = some createRun ∧
    ∃ db tok, tok.Role = 100 ∧ tok.Email = "root@example.com" ∧
      createRun.2.tokens = fun n => if n = db then world.tokens n ++ [tok] else world.tokens n := by
  have huser : ∀ c a, env.Extract (request "POST" "user" "ada@example.com") true = .ok (c, a) →
      a.Role < 100 := by
    intro c a h
    have h' : env.Extract (request "POST" "user" "ada@example.com") true =
        .ok (conf, userAuth) := rfl
    rw [h'] at h
    cases h
    decide
  have hu := admin_role env (request "POST" "user" "ada@example.com") registered
  have ha := (admin_role env (request "POST" "admin" "ada@example.com") registered).2.2.2.2
    conf adminAuth rfl (by decide)
  have hr := ((admin_role env (request "POST" "user" "Ada@Example.com") world).2.2.1
    conf userAuth { Email := "Ada@Example.com", Password := "pw" } rfl rfl).2
    (by decide)
  have hrun : create env 2 (request "POST" "" "Root@Example.com") world = some createRun := rfl
  have hc := (admin_role env (request "POST" "" "Root@Example.com") world).1 2 createRun hrun
  obtain ⟨db, tok, h1, h2, h3⟩ := hc.2 (by decide)
  obtain ⟨tok0, h4, -, h5⟩ := hr
  have hrole := ha.1 { Email := "ada@example.com", Role := 50 } rfl rfl
  have hpw := ha.2 { Email := "ada@example.com", OldPassword := "pw", NewPassword := "pw2" }
    ada "h:pw2" rfl rfl rfl rfl
  exact ⟨(hu.2.2.2.1 huser).1, (hu.2.2.2.1 huser).2, hrole.1, hrole.2.trans (by decide), hpw.1,
    ⟨tok0, h4, h5⟩, hrun, db, tok, h1, h2, h3⟩

/-- Witness of C7 (amended): after `Ada@Example.com` has registered,
registering `ADA@example.com` in the same tenant gets 400 `invalid email` when
the count query is answered and 500 with the error of the driver when it
fails; it stores and caches nothing, and, run after the first registration, it
does not succeed. -/
theorem register_duplicate_email_witness :
    env.Extract (request "POST" "user" "ADA@example.com") false = .ok (conf, userAuth) ∧
    env.DecodeLogin (request "POST" "user" "ADA@example.com").Body =
      .ok { Email := "ADA@example.com", Password := "pw" } ∧
    (register env (request "POST" "user" "Ada@Example.com") world).1.status = 200 ∧
    (register env (request "POST" "user" "ADA@example.com") registered).1 =
      .error "invalid email" 400 ∧
    (register env (request "POST" "user" "ADA@example.com") registered).2.tokens =
      registered.tokens ∧
    (register env (request "POST" "user" "ADA@example.com") registered).2.cache =
      registered.cache ∧
    (register envDriverDown (request "POST" "user" "ADA@example.com") registered).1 =
      .error "driver down" 500 ∧
    (register envDriverDown (request "POST" "user" "ADA@example.com") registered).2.tokens =
      registered.tokens ∧
    (register env (request "POST" "user" "ADA@example.com") registered).1.status ≠ 200 :=
  have h := register_duplicate_email env (request "POST" "user" "ADA@example.com") registered
    conf userAuth { Email := "ADA@example.com", Password := "pw" } rfl rfl
  have hd := register_duplicate_email envDriverDown (request "POST" "user" "ADA@example.com")
    registered conf userAuth { Email := "ADA@example.com", Password := "pw" } rfl rfl
  have hdup : ∃ t ∈ registered.tokens conf.Name,
      t.Email = env.ToLower "ADA@example.com" := ⟨ada, by decide, by decide⟩
  have hseq := h.2 (request "POST" "user" "Ada@Example.com") world conf userAuth
    { Email := "Ada@Example.com", Password := "pw" } rfl rfl rfl (by decide) (by decide)
    (fun _ ht => ht)
  ⟨rfl, rfl, by decide, (h.1 hdup).1 rfl, (h.1 hdup).2.2.2.1, (h.1 hdup).2.2.2.2.2,
    (hd.1 hdup).2.1 "driver down" rfl, (hd.1 hdup).2.2.2.1, hseq.1⟩

/-- Counterexample to C7 as stated: `Ada@Example.com` has registered, so the
lower-cased email of a registration as `ADA@example.com` matches a record of
`sb_tokens`; the count query fails in the driver, and the response is 500 with
the error of the driver, not 400 `invalid email`. So a matching record does not
always give 400. -/
theorem register_duplicate_email_counterexample :
    envDriverDown.Extract (request "POST" "user" "ADA@example.com") false =
      .ok (conf, userAuth) ∧
    envDriverDown.DecodeLogin (request "POST" "user" "ADA@example.com").Body =
      .ok { Email := "ADA@example.com", Password := "pw" } ∧
    ada ∈ registered.tokens conf.Name ∧
    ada.Email = envDriverDown.ToLower "ADA@example.com" ∧
    (register envDriverDown (request "POST" "user" "ADA@example.com") registered).1 =
      .error "driver down" 500 ∧
    (register envDriverDown (request "POST" "user" "ADA@example.com") registered).1 ≠
      .error "invalid email" 400 ∧
    ¬ ∀ (e : Env) (r : Request) (w : World) (c : BaseConfig) (a : Auth) (l : Login),
      e.Extract r false = .ok (c, a) → e.DecodeLogin r.Body = .ok l →
      (∃ t ∈ w.tokens c.Name, t.Email = e.ToLower l.Email) →
      (register e r w).1 = .error "invalid email" 400 := by
  have h500 : (register envDriverDown (request "POST" "user" "ADA@example.com") registered).1 =
      .error "driver down" 500 := by decide
  have hne : (register envDriverDown (request "POST" "user" "ADA@example.com") registered).1 ≠
      .error "invalid email" 400 := by decide
  refine ⟨rfl, rfl, by decide, by decide, h500, hne, ?_⟩
  intro hall
  exact hne (hall envDriverDown (request "POST" "user" "ADA@example.com") registered conf
    userAuth { Email := "ADA@example.com", Password := "pw" } rfl rfl
    ⟨ada, by decide, by decide⟩)

/-- Witness of C8: the first candidate name exists, the second does not; the
base configuration is created with the second name, and the handler returns
with any fuel above 20. -/
theorem create_database_name_witness :
    create env 2 (request "POST" "" "Root@Example.com") world = some createRun ∧
    (created createRun.2.log).map (fun b => b.Name) = ["47behkoruxAD"] ∧
    checks createRun.2.log = [("47behkoruxAD", .ok false), ("nqtwzCFJMQTW", .ok true)] ∧
    (∃ evs, createRun.2.log = evs ++ world.log ∧
      ∀ base ∈ created evs,
        Generated base.Name ∧ (checks evs).head? = some (base.Name, .ok false)) ∧
    ∀ fuel, 20 < fuel →
      (create env fuel (request "POST" "" "Root@Example.com") world).isSome = true := by
  have hrun : create env 2 (request "POST" "" "Root@Example.com") world = some createRun := rfl
  have h := create_database_name env (request "POST" "" "Root@Example.com") world
  obtain ⟨evs, hlog, hgen, -⟩ := h.1 2 createRun hrun
  refine ⟨hrun, by decide, rfl, ⟨evs, hlog, hgen⟩, ?_⟩
  apply h.2 20
  intro t ht name
  show Except.ok (decide (t < 20)) ≠ Except.ok true
  simp only [ne_eq, Except.ok.injEq, decide_eq_true_eq]
  omega

/-- Witness of C10: `A@b` (3 bytes) and `nodot@example` are rejected and the
world is unchanged; `Root@Example.com` passes and is looked up lower-cased. -/
theorem create_email_validation_witness :
    create env 0 (request "GET" "" "A@b") world =
      some (.error "invalid email" 400, world) ∧
    create env 0 (request "POST" "" "nodot@example") world =
      some (.error "invalid email" 400, world) ∧
    create env 2 (request "POST" "" "Root@Example.com") world = some createRun ∧
    createRun.1.status ≠ 400 ∧ lookups createRun.2.log = ["root@example.com"] := by
  have hrun : create env 2 (request "POST" "" "Root@Example.com") world = some createRun := rfl
  have h := (create_email_validation env 2 (request "POST" "" "Root@Example.com") world).2.2.2.1
    (by decide) createRun hrun
  exact ⟨(create_email_validation env 0 (request "GET" "" "A@b") world).2.2.1
      (Or.inl (by decide)),
    (create_email_validation env 0 (request "POST" "" "nodot@example") world).2.2.1
      (Or.inr (Or.inr (by decide))),
    hrun, h.1, h.2⟩

end Scenario

end StaticBackend
